import Mathlib

/-!
Verification of the kernel-memory Python client's data-binding layer
(`clients/python/kernel-memory-client/kernel_memory_client`): tri-state
field optionality, polymorphic union-field decoding with raw fallback,
open-model unknown-field capture, wire-name mapping, and status-code
response dispatch.

Wire JSON values are embedded as `JsonV`; Python dicts are embedded as
ordered association lists with unique keys (insertion order preserved,
assignment to an existing key updates in place), matching Python dict
semantics as used by the generated models.
-/

/-- A JSON wire value: null, bool, number, string, array, object.
Numbers are embedded as rationals (the models never do arithmetic on
them, they only pass them through). -/
inductive JsonV : Type where
  | null : JsonV
  | bool (b : Bool) : JsonV
  | num (q : Rat) : JsonV
  | str (s : String) : JsonV
  | arr (xs : List JsonV) : JsonV
  | obj (fields : List (String × JsonV)) : JsonV

mutual

/-- Decidable equality on JSON values (the derive handler does not
support this nested inductive, so it is spelled out). -/
def JsonV.deq : (a b : JsonV) → Decidable (a = b)
  | .null, .null => isTrue rfl
  | .null, .bool _ => isFalse (fun h => JsonV.noConfusion h)
  | .null, .num _ => isFalse (fun h => JsonV.noConfusion h)
  | .null, .str _ => isFalse (fun h => JsonV.noConfusion h)
  | .null, .arr _ => isFalse (fun h => JsonV.noConfusion h)
  | .null, .obj _ => isFalse (fun h => JsonV.noConfusion h)
  | .bool _, .null => isFalse (fun h => JsonV.noConfusion h)
  | .bool a, .bool b =>
    if h : a = b then isTrue (by rw [h]) else
      isFalse (fun hh => by cases hh; exact h rfl)
  | .bool _, .num _ => isFalse (fun h => JsonV.noConfusion h)
  | .bool _, .str _ => isFalse (fun h => JsonV.noConfusion h)
  | .bool _, .arr _ => isFalse (fun h => JsonV.noConfusion h)
  | .bool _, .obj _ => isFalse (fun h => JsonV.noConfusion h)
  | .num _, .null => isFalse (fun h => JsonV.noConfusion h)
  | .num _, .bool _ => isFalse (fun h => JsonV.noConfusion h)
  | .num a, .num b =>
    if h : a = b then isTrue (by rw [h]) else
      isFalse (fun hh => by cases hh; exact h rfl)
  | .num _, .str _ => isFalse (fun h => JsonV.noConfusion h)
  | .num _, .arr _ => isFalse (fun h => JsonV.noConfusion h)
  | .num _, .obj _ => isFalse (fun h => JsonV.noConfusion h)
  | .str _, .null => isFalse (fun h => JsonV.noConfusion h)
  | .str _, .bool _ => isFalse (fun h => JsonV.noConfusion h)
  | .str _, .num _ => isFalse (fun h => JsonV.noConfusion h)
  | .str a, .str b =>
    if h : a = b then isTrue (by rw [h]) else
      isFalse (fun hh => by cases hh; exact h rfl)
  | .str _, .arr _ => isFalse (fun h => JsonV.noConfusion h)
  | .str _, .obj _ => isFalse (fun h => JsonV.noConfusion h)
  | .arr _, .null => isFalse (fun h => JsonV.noConfusion h)
  | .arr _, .bool _ => isFalse (fun h => JsonV.noConfusion h)
  | .arr _, .num _ => isFalse (fun h => JsonV.noConfusion h)
  | .arr _, .str _ => isFalse (fun h => JsonV.noConfusion h)
  | .arr xs, .arr ys =>
    match JsonV.deqList xs ys with
    | isTrue h => isTrue (by rw [h])
    | isFalse h => isFalse (fun hh => by cases hh; exact h rfl)
  | .arr _, .obj _ => isFalse (fun h => JsonV.noConfusion h)
  | .obj _, .null => isFalse (fun h => JsonV.noConfusion h)
  | .obj _, .bool _ => isFalse (fun h => JsonV.noConfusion h)
  | .obj _, .num _ => isFalse (fun h => JsonV.noConfusion h)
  | .obj _, .str _ => isFalse (fun h => JsonV.noConfusion h)
  | .obj _, .arr _ => isFalse (fun h => JsonV.noConfusion h)
  | .obj xs, .obj ys =>
    match JsonV.deqFields xs ys with
    | isTrue h => isTrue (by rw [h])
    | isFalse h => isFalse (fun hh => by cases hh; exact h rfl)

/-- Decidable equality on JSON arrays. -/
def JsonV.deqList : (a b : List JsonV) → Decidable (a = b)
  | [], [] => isTrue rfl
  | [], _ :: _ => isFalse (fun h => List.noConfusion h)
  | _ :: _, [] => isFalse (fun h => List.noConfusion h)
  | x :: xs, y :: ys =>
    match JsonV.deq x y, JsonV.deqList xs ys with
    | isTrue h1, isTrue h2 => isTrue (by rw [h1, h2])
    | isFalse h1, _ => isFalse (fun hh => by cases hh; exact h1 rfl)
    | _, isFalse h2 => isFalse (fun hh => by cases hh; exact h2 rfl)

/-- Decidable equality on JSON object field lists. -/
def JsonV.deqFields : (a b : List (String × JsonV)) → Decidable (a = b)
  | [], [] => isTrue rfl
  | [], _ :: _ => isFalse (fun h => List.noConfusion h)
  | _ :: _, [] => isFalse (fun h => List.noConfusion h)
  | (k1, v1) :: xs, (k2, v2) :: ys =>
    if hk : k1 = k2 then
      match JsonV.deq v1 v2, JsonV.deqFields xs ys with
      | isTrue h1, isTrue h2 => isTrue (by rw [hk, h1, h2])
      | isFalse h1, _ => isFalse (fun hh => by cases hh; exact h1 rfl)
      | _, isFalse h2 => isFalse (fun hh => by cases hh; exact h2 rfl)
    else
      isFalse (fun hh => by cases hh; exact hk rfl)

end

instance : DecidableEq JsonV := JsonV.deq

/-! ## Python dict operations on ordered association lists -/

/-- `d.get(k)` / first-occurrence lookup. Python dicts have unique keys;
on such lists this is exactly dict lookup. -/
def dlookup (k : String) : List (String × JsonV) → Option JsonV
  | [] => none
  | (k2, v) :: rest => if k2 = k then some v else dlookup k rest

/-- The removal part of `d.pop(k, default)`: drop the first entry with
key `k` (the only one, for unique-keyed lists). -/
def dremove (k : String) : List (String × JsonV) → List (String × JsonV)
  | [] => []
  | (k2, v) :: rest => if k2 = k then rest else (k2, v) :: dremove k rest

/-- `d[k] = v`: replace the value in place when the key exists,
else append the new entry, as Python dict assignment does. -/
def dinsert (k : String) (v : JsonV) : List (String × JsonV) → List (String × JsonV)
  | [] => [(k, v)]
  | (k2, v2) :: rest => if k2 = k then (k, v) :: rest else (k2, v2) :: dinsert k v rest

/-- The per-field emission step of every generated `to_dict`:
`if x is not UNSET: field_dict[k] = x`. A `none` (UNSET / Absent) field
emits nothing; `some x` assigns the key. -/
def demit (k : String) (v : Option JsonV) (d : List (String × JsonV)) :
    List (String × JsonV) :=
  match v with
  | none => d
  | some x => dinsert k x d

/-! ## Date-time parsing

External collaborator `dateutil.parser.isoparse` (a third-party library,
not repository code), modelled abstractly: a non-string argument (JSON
null, numbers, arrays, objects) raises `TypeError`; a string parses
exactly when it is ISO-8601-shaped, approximated here by a
`YYYY-MM-DD` prefix check; the parsed value keeps the source text.
No claim depends on the precise accepted date grammar, only on
null/non-string rejection versus well-formed-string acceptance. -/

/-- A parsed `datetime.datetime` value, carrying its source text. -/
structure IsoDate where
  raw : String
  deriving DecidableEq

/-- ISO-8601 shape check (date prefix `YYYY-MM-DD`). -/
def isoValid (s : String) : Bool :=
  match s.toList with
  | y1 :: y2 :: y3 :: y4 :: h1 :: m1 :: m2 :: h2 :: d1 :: d2 :: _ =>
    y1.isDigit && y2.isDigit && y3.isDigit && y4.isDigit && h1 == '-' &&
      m1.isDigit && m2.isDigit && h2 == '-' && d1.isDigit && d2.isDigit
  | _ => false

/-- `dateutil.parser.isoparse` on a wire value: `none` models a raised
`TypeError`/`ValueError`. -/
def isoparse : JsonV → Option IsoDate
  | .str s => if isoValid s then some ⟨s⟩ else none
  | _ => none

/-- `datetime.isoformat()`, on values produced by `isoparse`:
the stored text. -/
def IsoDate.isoformat (d : IsoDate) : String := d.raw

/-- The element loop shared by every generated list-union parser:
decode each element in order, aborting at the first element whose
decode raises (the raised exception is what aborts the Python `for`
loop inside the `try`). -/
def decodeAll {α : Type} (f : JsonV → Option α) : List JsonV → Option (List α)
  | [] => some []
  | x :: xs => do
    let y ← f x
    let ys ← decodeAll f xs
    pure (y :: ys)

/-! ## SearchQuery (`models/search_query.py`) -/

/-- Modelled from the spec: `SearchQueryFiltersType0Item`
(`models/search_query_filters_type_0_item.py` is not under src/, only its
caller `SearchQuery.from_dict` is). Per spec section 3, tag filters are
owned open string-keyed maps; the generated open model captures the
whole wire object: `from_dict` stores `dict(src_dict)` as
`additional_properties`, `to_dict` re-emits it. -/
structure SearchQueryFiltersType0Item where
  additional_properties : List (String × JsonV)
  deriving DecidableEq

/-- `SearchQueryFiltersType0Item.to_dict`. -/
def SearchQueryFiltersType0Item.to_dict (m : SearchQueryFiltersType0Item) :
    List (String × JsonV) := m.additional_properties

/-- `SearchQueryFiltersType0Item.from_dict(data)` as called on an
arbitrary wire value: `dict(data)` raises `TypeError` unless the value
is an object (`none` models the raised error). -/
def SearchQueryFiltersType0Item.decode : JsonV → Option SearchQueryFiltersType0Item
  | .obj fs => some ⟨fs⟩
  | _ => none

/-- Modelled from the spec: `SearchQueryArgsType0`
(`models/search_query_args_type_0.py` is not under src/). Per spec
section 3, `args` is a free-form argument object; the generated open
model captures the whole wire object as additional properties. -/
structure SearchQueryArgsType0 where
  additional_properties : List (String × JsonV)
  deriving DecidableEq

/-- `SearchQueryArgsType0.to_dict`. -/
def SearchQueryArgsType0.to_dict (m : SearchQueryArgsType0) :
    List (String × JsonV) := m.additional_properties

/-- Runtime value of the union field `SearchQuery.filters`
(`Union[None, Unset, list[SearchQueryFiltersType0Item]]`): the
structured list of parsed items, or the raw wire value kept by the
fallback (`raw .null` is the field's Null state). -/
inductive SearchQueryFilters where
  | parsed (items : List SearchQueryFiltersType0Item)
  | raw (v : JsonV)
  deriving DecidableEq

/-- Runtime value of the union field `SearchQuery.args`
(`Union[SearchQueryArgsType0, None, Unset]`). -/
inductive SearchQueryArgs where
  | parsed (a : SearchQueryArgsType0)
  | raw (v : JsonV)
  deriving DecidableEq

/-- The `SearchQuery` model. A field value `none` is the `UNSET`
sentinel (Absent); `some .null` / `some (.raw .null)` is Python `None`
(Null); any other `some` is a present value. Scalar tri-state parse
functions (`_parse_index` etc.) return their argument unchanged, so
scalar fields hold the popped wire value directly. -/
structure SearchQuery where
  index : Option JsonV := none
  query : Option JsonV := none
  filters : Option SearchQueryFilters := none
  min_relevance : Option JsonV := none
  limit : Option JsonV := none
  args : Option SearchQueryArgs := none
  deriving DecidableEq

/-- Wire encoding of a `filters` value: a parsed list maps each item
through its `to_dict`; a raw fallback value is emitted unchanged
(Python `None` encodes as JSON null). -/
def SearchQueryFilters.encode : SearchQueryFilters → JsonV
  | .parsed items => .arr (items.map (fun i => .obj i.to_dict))
  | .raw v => v

/-- Wire encoding of an `args` value. -/
def SearchQueryArgs.encode : SearchQueryArgs → JsonV
  | .parsed a => .obj a.to_dict
  | .raw v => v

/-- `SearchQuery.to_dict`: conditional key emission in source order. -/
def SearchQuery.to_dict (m : SearchQuery) : List (String × JsonV) :=
  let d : List (String × JsonV) := []
  let d := demit "index" m.index d
  let d := demit "query" m.query d
  let d := demit "filters" (m.filters.map SearchQueryFilters.encode) d
  let d := demit "minRelevance" m.min_relevance d
  let d := demit "limit" m.limit d
  let d := demit "args" (m.args.map SearchQueryArgs.encode) d
  d

/-- `SearchQuery.from_dict`'s local `_parse_filters`: `None` and `UNSET`
pass through; a list whose every element decodes as a filter item gives
the structured list; any exception inside the `try` block (non-list
input, or any element failing `from_dict`) falls through to returning
the raw input value. The argument is the result of
`d.pop("filters", UNSET)` (`none` = missing key). -/
def SearchQuery.parse_filters : Option JsonV → Option SearchQueryFilters
  | none => none
  | some .null => some (.raw .null)
  | some (.arr xs) =>
    match decodeAll SearchQueryFiltersType0Item.decode xs with
    | some items => some (.parsed items)
    | none => some (.raw (.arr xs))
  | some v => some (.raw v)

/-- `SearchQuery.from_dict`'s local `_parse_args`: `None` and `UNSET`
pass through; a dict input decodes as `SearchQueryArgsType0` (which
always succeeds on a dict); anything else falls back to the raw value. -/
def SearchQuery.parse_args : Option JsonV → Option SearchQueryArgs
  | none => none
  | some .null => some (.raw .null)
  | some (.obj fs) => some (.parsed ⟨fs⟩)
  | some v => some (.raw v)

/-- `SearchQuery.from_dict`: each field pops its wire key (the popped
keys are pairwise distinct, so each pop sees the original value). -/
def SearchQuery.from_dict (d : List (String × JsonV)) : SearchQuery :=
  { index := dlookup "index" d
    query := dlookup "query" d
    filters := SearchQuery.parse_filters (dlookup "filters" d)
    min_relevance := dlookup "minRelevance" d
    limit := dlookup "limit" d
    args := SearchQuery.parse_args (dlookup "args" d) }

/-! ## ProblemDetails (`models/problem_details.py`) — open model -/

/-- The `ProblemDetails` open model: five declared tri-state scalar
fields plus the captured unknown fields (`additional_properties`, a
Python dict, hence unique keys in insertion order). -/
structure ProblemDetails where
  type_ : Option JsonV := none
  title : Option JsonV := none
  status : Option JsonV := none
  detail : Option JsonV := none
  instance_ : Option JsonV := none
  additional_properties : List (String × JsonV) := []
  deriving DecidableEq

/-- `ProblemDetails.to_dict`: `field_dict.update(additional_properties)`
first, then conditional emission of the declared fields at their wire
names — a declared field overwrites a captured entry of the same key in
place. -/
def ProblemDetails.to_dict (m : ProblemDetails) : List (String × JsonV) :=
  let d : List (String × JsonV) :=
    m.additional_properties.foldl (fun acc kv => dinsert kv.1 kv.2 acc) []
  let d := demit "type" m.type_ d
  let d := demit "title" m.title d
  let d := demit "status" m.status d
  let d := demit "detail" m.detail d
  let d := demit "instance" m.instance_ d
  d

/-- `ProblemDetails.from_dict`: `d = dict(src_dict)`, each declared
field pops its wire key out of `d`, and whatever remains becomes
`additional_properties`. -/
def ProblemDetails.from_dict (src : List (String × JsonV)) : ProblemDetails :=
  let d := src
  let type_ := dlookup "type" d
  let d := dremove "type" d
  let title := dlookup "title" d
  let d := dremove "title" d
  let status := dlookup "status" d
  let d := dremove "status" d
  let detail := dlookup "detail" d
  let d := dremove "detail" d
  let instance_ := dlookup "instance" d
  let d := dremove "instance" d
  { type_, title, status, detail, instance_, additional_properties := d }

/-! ## UploadAccepted (`models/upload_accepted.py`) -/

/-- The `UploadAccepted` model: three tri-state scalar fields. -/
structure UploadAccepted where
  index : Option JsonV := none
  document_id : Option JsonV := none
  message : Option JsonV := none
  deriving DecidableEq

/-- `UploadAccepted.to_dict`. -/
def UploadAccepted.to_dict (m : UploadAccepted) : List (String × JsonV) :=
  let d : List (String × JsonV) := []
  let d := demit "index" m.index d
  let d := demit "documentId" m.document_id d
  let d := demit "message" m.message d
  d

/-- `UploadAccepted.from_dict`. -/
def UploadAccepted.from_dict (d : List (String × JsonV)) : UploadAccepted :=
  { index := dlookup "index" d
    document_id := dlookup "documentId" d
    message := dlookup "message" d }

/-- `UploadAccepted.from_dict` on an arbitrary wire value:
`dict(src_dict)` raises unless the value is an object. -/
def UploadAccepted.decode : JsonV → Option UploadAccepted
  | .obj fs => some (UploadAccepted.from_dict fs)
  | _ => none

/-! ## Partition (`models/partition.py`) -/

/-- Modelled from the spec: `PartitionTagsType0`
(`models/partition_tags_type_0.py` is not under src/). Per spec
section 3, tag maps are owned open string-keyed maps captured whole as
additional properties. -/
structure PartitionTagsType0 where
  additional_properties : List (String × JsonV)
  deriving DecidableEq

/-- `PartitionTagsType0.to_dict`. -/
def PartitionTagsType0.to_dict (m : PartitionTagsType0) :
    List (String × JsonV) := m.additional_properties

/-- Runtime value of the union field `Partition.tags`
(`Union[PartitionTagsType0, None, Unset]`). -/
inductive PartitionTags where
  | parsed (a : PartitionTagsType0)
  | raw (v : JsonV)
  deriving DecidableEq

/-- Wire encoding of a `tags` value. -/
def PartitionTags.encode : PartitionTags → JsonV
  | .parsed a => .obj a.to_dict
  | .raw v => v

/-- The `Partition` model. `last_update` is declared
`Union[Unset, datetime.datetime]` — two-state, not tri-state. -/
structure Partition where
  text : Option JsonV := none
  relevance : Option JsonV := none
  partition_number : Option JsonV := none
  section_number : Option JsonV := none
  last_update : Option IsoDate := none
  tags : Option PartitionTags := none
  deriving DecidableEq

/-- `Partition.to_dict`. -/
def Partition.to_dict (m : Partition) : List (String × JsonV) :=
  let d : List (String × JsonV) := []
  let d := demit "text" m.text d
  let d := demit "relevance" m.relevance d
  let d := demit "partitionNumber" m.partition_number d
  let d := demit "sectionNumber" m.section_number d
  let d := demit "lastUpdate" (m.last_update.map (fun t => .str t.isoformat)) d
  let d := demit "tags" (m.tags.map PartitionTags.encode) d
  d

/-- `Partition.from_dict`'s local `_parse_tags`. -/
def Partition.parse_tags : Option JsonV → Option PartitionTags
  | none => none
  | some .null => some (.raw .null)
  | some (.obj fs) => some (.parsed ⟨fs⟩)
  | some v => some (.raw v)

/-- `Partition.from_dict`: all fields are total except `lastUpdate`,
which, when the key is present, feeds its value (JSON null included)
straight to `isoparse`; a parse failure propagates out of `from_dict`
(`none` models the raised exception — there is no `try` around it). -/
def Partition.from_dict (d : List (String × JsonV)) : Option Partition := do
  let last_update ←
    match dlookup "lastUpdate" d with
    | none => pure none
    | some v => (isoparse v).map some
  pure
    { text := dlookup "text" d
      relevance := dlookup "relevance" d
      partition_number := dlookup "partitionNumber" d
      section_number := dlookup "sectionNumber" d
      last_update := last_update
      tags := Partition.parse_tags (dlookup "tags" d) }

/-- `Partition.from_dict` on an arbitrary wire value (as called on
array elements by `_parse_partitions`): `dict(src_dict)` raises unless
the value is an object. -/
def Partition.decode : JsonV → Option Partition
  | .obj fs => Partition.from_dict fs
  | _ => none

/-! ## Citation (`models/citation.py`) -/

/-- Runtime value of the union field `Citation.partitions`
(`Union[None, Unset, list[Partition]]`). -/
inductive CitationPartitions where
  | parsed (items : List Partition)
  | raw (v : JsonV)
  deriving DecidableEq

/-- Wire encoding of a `partitions` value. -/
def CitationPartitions.encode : CitationPartitions → JsonV
  | .parsed items => .arr (items.map (fun p => .obj p.to_dict))
  | .raw v => v

/-- The `Citation` model: seven tri-state scalar fields plus the
`partitions` union field. -/
structure Citation where
  link : Option JsonV := none
  index : Option JsonV := none
  document_id : Option JsonV := none
  file_id : Option JsonV := none
  source_content_type : Option JsonV := none
  source_name : Option JsonV := none
  source_url : Option JsonV := none
  partitions : Option CitationPartitions := none
  deriving DecidableEq

/-- `Citation.to_dict`. -/
def Citation.to_dict (m : Citation) : List (String × JsonV) :=
  let d : List (String × JsonV) := []
  let d := demit "link" m.link d
  let d := demit "index" m.index d
  let d := demit "documentId" m.document_id d
  let d := demit "fileId" m.file_id d
  let d := demit "sourceContentType" m.source_content_type d
  let d := demit "sourceName" m.source_name d
  let d := demit "sourceUrl" m.source_url d
  let d := demit "partitions" (m.partitions.map CitationPartitions.encode) d
  d

/-- `Citation.from_dict`'s local `_parse_partitions`: a list whose every
element decodes as a `Partition` gives the structured list; any failure
inside the `try` (non-list input, or any single element failing
`Partition.from_dict`) falls back to the raw input value. -/
def Citation.parse_partitions : Option JsonV → Option CitationPartitions
  | none => none
  | some .null => some (.raw .null)
  | some (.arr xs) =>
    match decodeAll Partition.decode xs with
    | some items => some (.parsed items)
    | none => some (.raw (.arr xs))
  | some v => some (.raw v)

/-- `Citation.from_dict`. -/
def Citation.from_dict (d : List (String × JsonV)) : Citation :=
  { link := dlookup "link" d
    index := dlookup "index" d
    document_id := dlookup "documentId" d
    file_id := dlookup "fileId" d
    source_content_type := dlookup "sourceContentType" d
    source_name := dlookup "sourceName" d
    source_url := dlookup "sourceUrl" d
    partitions := Citation.parse_partitions (dlookup "partitions" d) }

/-- `Citation.from_dict` on an arbitrary wire value (as called on array
elements): `dict(src_dict)` raises unless the value is an object. -/
def Citation.decode : JsonV → Option Citation
  | .obj fs => some (Citation.from_dict fs)
  | _ => none

/-! ## TokenUsage (`models/token_usage.py`) -/

/-- The `TokenUsage` model: `timestamp` is two-state
(`Union[Unset, datetime.datetime]`); the rest are tri-state scalars. -/
structure TokenUsage where
  timestamp : Option IsoDate := none
  service_type : Option JsonV := none
  model_type : Option JsonV := none
  model_name : Option JsonV := none
  tokenizer_tokens_in : Option JsonV := none
  tokenizer_tokens_out : Option JsonV := none
  service_tokens_in : Option JsonV := none
  service_tokens_out : Option JsonV := none
  service_reasoning_tokens : Option JsonV := none
  deriving DecidableEq

/-- `TokenUsage.to_dict`. -/
def TokenUsage.to_dict (m : TokenUsage) : List (String × JsonV) :=
  let d : List (String × JsonV) := []
  let d := demit "timestamp" (m.timestamp.map (fun t => .str t.isoformat)) d
  let d := demit "serviceType" m.service_type d
  let d := demit "modelType" m.model_type d
  let d := demit "modelName" m.model_name d
  let d := demit "tokenizerTokensIn" m.tokenizer_tokens_in d
  let d := demit "tokenizerTokensOut" m.tokenizer_tokens_out d
  let d := demit "serviceTokensIn" m.service_tokens_in d
  let d := demit "serviceTokensOut" m.service_tokens_out d
  let d := demit "serviceReasoningTokens" m.service_reasoning_tokens d
  d

/-- `TokenUsage.from_dict`: a present `timestamp` goes straight to
`isoparse`; a failure propagates (no `try`). -/
def TokenUsage.from_dict (d : List (String × JsonV)) : Option TokenUsage := do
  let timestamp ←
    match dlookup "timestamp" d with
    | none => pure none
    | some v => (isoparse v).map some
  pure
    { timestamp := timestamp
      service_type := dlookup "serviceType" d
      model_type := dlookup "modelType" d
      model_name := dlookup "modelName" d
      tokenizer_tokens_in := dlookup "tokenizerTokensIn" d
      tokenizer_tokens_out := dlookup "tokenizerTokensOut" d
      service_tokens_in := dlookup "serviceTokensIn" d
      service_tokens_out := dlookup "serviceTokensOut" d
      service_reasoning_tokens := dlookup "serviceReasoningTokens" d }

/-- `TokenUsage.from_dict` on an arbitrary wire value. -/
def TokenUsage.decode : JsonV → Option TokenUsage
  | .obj fs => TokenUsage.from_dict fs
  | _ => none

/-! ## StreamStates (`models/stream_states.py`) -/

/-- The `StreamStates` string enum. -/
inductive StreamStates where
  | append | error | last | reset
  deriving DecidableEq

/-- The enum constructor `StreamStates(value)`: the four member strings
map to their members; any other value raises `ValueError` (`none`). -/
def StreamStates.ofValue : JsonV → Option StreamStates
  | .str "append" => some .append
  | .str "error" => some .error
  | .str "last" => some .last
  | .str "reset" => some .reset
  | _ => none

/-- `StreamStates.value`. -/
def StreamStates.value : StreamStates → String
  | .append => "append"
  | .error => "error"
  | .last => "last"
  | .reset => "reset"

/-! ## MemoryAnswer (`models/memory_answer.py`) -/

/-- Runtime value of the union field `MemoryAnswer.token_usage`
(`Union[None, Unset, list[TokenUsage]]`). -/
inductive MemoryAnswerTokenUsage where
  | parsed (items : List TokenUsage)
  | raw (v : JsonV)
  deriving DecidableEq

/-- Wire encoding of a `token_usage` value. -/
def MemoryAnswerTokenUsage.encode : MemoryAnswerTokenUsage → JsonV
  | .parsed items => .arr (items.map (fun t => .obj t.to_dict))
  | .raw v => v

/-- Runtime value of the union field `MemoryAnswer.relevant_sources`
(`Union[None, Unset, list[Citation]]`). -/
inductive MemoryAnswerSources where
  | parsed (items : List Citation)
  | raw (v : JsonV)
  deriving DecidableEq

/-- Wire encoding of a `relevant_sources` value. -/
def MemoryAnswerSources.encode : MemoryAnswerSources → JsonV
  | .parsed items => .arr (items.map (fun c => .obj c.to_dict))
  | .raw v => v

/-- The `MemoryAnswer` model. `stream_state` is two-state
(`Union[Unset, StreamStates]`). -/
structure MemoryAnswer where
  stream_state : Option StreamStates := none
  question : Option JsonV := none
  no_result : Option JsonV := none
  no_result_reason : Option JsonV := none
  text : Option JsonV := none
  token_usage : Option MemoryAnswerTokenUsage := none
  relevant_sources : Option MemoryAnswerSources := none
  deriving DecidableEq

/-- `MemoryAnswer.to_dict`. -/
def MemoryAnswer.to_dict (m : MemoryAnswer) : List (String × JsonV) :=
  let d : List (String × JsonV) := []
  let d := demit "streamState" (m.stream_state.map (fun s => .str s.value)) d
  let d := demit "question" m.question d
  let d := demit "noResult" m.no_result d
  let d := demit "noResultReason" m.no_result_reason d
  let d := demit "text" m.text d
  let d := demit "tokenUsage" (m.token_usage.map MemoryAnswerTokenUsage.encode) d
  let d := demit "relevantSources" (m.relevant_sources.map MemoryAnswerSources.encode) d
  d

/-- `MemoryAnswer.from_dict`'s local `_parse_token_usage`. -/
def MemoryAnswer.parse_token_usage : Option JsonV → Option MemoryAnswerTokenUsage
  | none => none
  | some .null => some (.raw .null)
  | some (.arr xs) =>
    match decodeAll TokenUsage.decode xs with
    | some items => some (.parsed items)
    | none => some (.raw (.arr xs))
  | some v => some (.raw v)

/-- `MemoryAnswer.from_dict`'s local `_parse_relevant_sources`. -/
def MemoryAnswer.parse_relevant_sources : Option JsonV → Option MemoryAnswerSources
  | none => none
  | some .null => some (.raw .null)
  | some (.arr xs) =>
    match decodeAll Citation.decode xs with
    | some items => some (.parsed items)
    | none => some (.raw (.arr xs))
  | some v => some (.raw v)

/-- `MemoryAnswer.from_dict`: a present `streamState` value (JSON null
included) goes straight to the `StreamStates` enum constructor, whose
`ValueError` propagates — no `try`, no fallback (`none` models the
raised error). All other fields are total. -/
def MemoryAnswer.from_dict (d : List (String × JsonV)) : Option MemoryAnswer := do
  let stream_state ←
    match dlookup "streamState" d with
    | none => pure none
    | some v => (StreamStates.ofValue v).map some
  pure
    { stream_state := stream_state
      question := dlookup "question" d
      no_result := dlookup "noResult" d
      no_result_reason := dlookup "noResultReason" d
      text := dlookup "text" d
      token_usage := MemoryAnswer.parse_token_usage (dlookup "tokenUsage" d)
      relevant_sources :=
        MemoryAnswer.parse_relevant_sources (dlookup "relevantSources" d) }

/-! ## SearchResult (`models/search_result.py`) -/

/-- Runtime value of the union field `SearchResult.results`
(`Union[None, Unset, list[Citation]]`). -/
inductive SearchResultResults where
  | parsed (items : List Citation)
  | raw (v : JsonV)
  deriving DecidableEq

/-- Wire encoding of a `results` value. -/
def SearchResultResults.encode : SearchResultResults → JsonV
  | .parsed items => .arr (items.map (fun c => .obj c.to_dict))
  | .raw v => v

/-- The `SearchResult` model. -/
structure SearchResult where
  query : Option JsonV := none
  no_result : Option JsonV := none
  results : Option SearchResultResults := none
  deriving DecidableEq

/-- `SearchResult.to_dict`. -/
def SearchResult.to_dict (m : SearchResult) : List (String × JsonV) :=
  let d : List (String × JsonV) := []
  let d := demit "query" m.query d
  let d := demit "noResult" m.no_result d
  let d := demit "results" (m.results.map SearchResultResults.encode) d
  d

/-- `SearchResult.from_dict`'s local `_parse_results`. -/
def SearchResult.parse_results : Option JsonV → Option SearchResultResults
  | none => none
  | some .null => some (.raw .null)
  | some (.arr xs) =>
    match decodeAll Citation.decode xs with
    | some items => some (.parsed items)
    | none => some (.raw (.arr xs))
  | some v => some (.raw v)

/-- `SearchResult.from_dict`. -/
def SearchResult.from_dict (d : List (String × JsonV)) : SearchResult :=
  { query := dlookup "query" d
    no_result := dlookup "noResult" d
    results := SearchResult.parse_results (dlookup "results" d) }

/-! ## DataPipelineStatus (`models/data_pipeline_status.py`) -/

/-- Modelled from the spec: `DataPipelineStatusTagsType0`
(`models/data_pipeline_status_tags_type_0.py` is not under src/). An
open tag-map model capturing the whole wire object. -/
structure DataPipelineStatusTagsType0 where
  additional_properties : List (String × JsonV)
  deriving DecidableEq

/-- `DataPipelineStatusTagsType0.to_dict`. -/
def DataPipelineStatusTagsType0.to_dict (m : DataPipelineStatusTagsType0) :
    List (String × JsonV) := m.additional_properties

/-- Runtime value of the union field `DataPipelineStatus.tags`. -/
inductive DataPipelineStatusTags where
  | parsed (a : DataPipelineStatusTagsType0)
  | raw (v : JsonV)
  deriving DecidableEq

/-- Wire encoding of a `tags` value. -/
def DataPipelineStatusTags.encode : DataPipelineStatusTags → JsonV
  | .parsed a => .obj a.to_dict
  | .raw v => v

/-- The `DataPipelineStatus` model. `creation` and `last_update` are
two-state datetime fields. The `steps`/`remaining_steps`/
`completed_steps` parsers (`_parse_steps` etc.) only `cast` a list input
without touching it and fall back to the raw value otherwise, so they
return their input unchanged for every present value: the fields hold
the popped wire value directly. -/
structure DataPipelineStatus where
  completed : Option JsonV := none
  empty : Option JsonV := none
  index : Option JsonV := none
  document_id : Option JsonV := none
  tags : Option DataPipelineStatusTags := none
  creation : Option IsoDate := none
  last_update : Option IsoDate := none
  steps : Option JsonV := none
  remaining_steps : Option JsonV := none
  completed_steps : Option JsonV := none
  deriving DecidableEq

/-- `DataPipelineStatus.to_dict`. Note the wire keys: `document_id`,
`creation`, `last_update`, `remaining_steps`, `completed_steps` — this
model's wire names equal its snake_case internal names. -/
def DataPipelineStatus.to_dict (m : DataPipelineStatus) : List (String × JsonV) :=
  let d : List (String × JsonV) := []
  let d := demit "completed" m.completed d
  let d := demit "empty" m.empty d
  let d := demit "index" m.index d
  let d := demit "document_id" m.document_id d
  let d := demit "tags" (m.tags.map DataPipelineStatusTags.encode) d
  let d := demit "creation" (m.creation.map (fun t => .str t.isoformat)) d
  let d := demit "last_update" (m.last_update.map (fun t => .str t.isoformat)) d
  let d := demit "steps" m.steps d
  let d := demit "remaining_steps" m.remaining_steps d
  let d := demit "completed_steps" m.completed_steps d
  d

/-- `DataPipelineStatus.from_dict`'s local `_parse_tags`. -/
def DataPipelineStatus.parse_tags : Option JsonV → Option DataPipelineStatusTags
  | none => none
  | some .null => some (.raw .null)
  | some (.obj fs) => some (.parsed ⟨fs⟩)
  | some v => some (.raw v)

/-- `DataPipelineStatus.from_dict`: present `creation`/`last_update`
values go straight to `isoparse`; a failure propagates (no `try`). -/
def DataPipelineStatus.from_dict (d : List (String × JsonV)) :
    Option DataPipelineStatus := do
  let creation ←
    match dlookup "creation" d with
    | none => pure none
    | some v => (isoparse v).map some
  let last_update ←
    match dlookup "last_update" d with
    | none => pure none
    | some v => (isoparse v).map some
  pure
    { completed := dlookup "completed" d
      empty := dlookup "empty" d
      index := dlookup "index" d
      document_id := dlookup "document_id" d
      tags := DataPipelineStatus.parse_tags (dlookup "tags" d)
      creation := creation
      last_update := last_update
      steps := dlookup "steps" d
      remaining_steps := dlookup "remaining_steps" d
      completed_steps := dlookup "completed_steps" d }

/-! ## Response dispatch for POST /upload
(`api/microsoft_kernel_memory_service_assembly/upload_document.py`) -/

/-- Modelled from the spec: the client-wide configuration flag
`Client.raise_on_unexpected_status` (`client.py` is not under src/);
per spec section 4.5 it is a client-wide setting, not per-call. -/
structure Client where
  raise_on_unexpected_status : Bool

/-- An HTTP response as seen by `_parse_response`: the status code plus
the body (`response.json()` / `response.content` are both represented
by the same wire value; transport-level byte handling is out of
scope). -/
structure HttpResponse where
  status_code : Nat
  body : JsonV

/-- `errors.UnexpectedStatus`, carrying the raw status code and body.
Modelled from the spec: `errors.py` is not under src/; per spec
section 7 the error carries the raw status and body. -/
structure UnexpectedStatus where
  status_code : Nat
  content : JsonV
  deriving DecidableEq

deriving instance DecidableEq for Except

/-- A raised error escaping `_parse_response`. -/
inductive DispatchError where
  | unexpectedStatus (e : UnexpectedStatus)
  | decodeError
  deriving DecidableEq

/-- The discriminated parsed result of the `/upload` dispatch table. -/
inductive UploadParsed where
  | uploadAccepted (u : UploadAccepted)
  | problem (p : ProblemDetails)
  deriving DecidableEq

/-- `ProblemDetails.from_dict(response.json())`: `dict()` raises unless
the body is an object. -/
def ProblemDetails.decode : JsonV → Option ProblemDetails
  | .obj fs => some (ProblemDetails.from_dict fs)
  | _ => none

/-- `upload_document._parse_response`: status 200 returns `None` parsed
(`cast(Any, None)`) without touching the body; 202 decodes
`UploadAccepted`; 400/401/403/503 decode `ProblemDetails`; any other
status raises `UnexpectedStatus(status, content)` when
`client.raise_on_unexpected_status` is set, else returns `None`. -/
def upload_parse_response (client : Client) (response : HttpResponse) :
    Except DispatchError (Option UploadParsed) :=
  if response.status_code = 200 then
    .ok none
  else if response.status_code = 202 then
    match UploadAccepted.decode response.body with
    | some u => .ok (some (.uploadAccepted u))
    | none => .error .decodeError
  else if response.status_code = 400 then
    match ProblemDetails.decode response.body with
    | some p => .ok (some (.problem p))
    | none => .error .decodeError
  else if response.status_code = 401 then
    match ProblemDetails.decode response.body with
    | some p => .ok (some (.problem p))
    | none => .error .decodeError
  else if response.status_code = 403 then
    match ProblemDetails.decode response.body with
    | some p => .ok (some (.problem p))
    | none => .error .decodeError
  else if response.status_code = 503 then
    match ProblemDetails.decode response.body with
    | some p => .ok (some (.problem p))
    | none => .error .decodeError
  else if client.raise_on_unexpected_status then
    .error (.unexpectedStatus ⟨response.status_code, response.body⟩)
  else
    .ok none

/-! ## Shape predicates and helper views used by the theorems -/

/-- The annotation-conformant shapes of `SearchQuery.filters`
(`Union[None, Unset, list[SearchQueryFiltersType0Item]]`): Unset, None,
or a structured list. The raw fallback shape only arises from decoding
ill-shaped wire data, never from a type-valid in-memory instance. -/
def SearchQueryFilters.isDeclaredShape : Option SearchQueryFilters → Bool
  | none => true
  | some (.parsed _) => true
  | some (.raw v) => decide (v = JsonV.null)

/-- The annotation-conformant shapes of `SearchQuery.args`
(`Union[SearchQueryArgsType0, None, Unset]`). -/
def SearchQueryArgs.isDeclaredShape : Option SearchQueryArgs → Bool
  | none => true
  | some (.parsed _) => true
  | some (.raw v) => decide (v = JsonV.null)

/-- The declared-field part of `ProblemDetails.to_dict`: the five
conditional key emissions, in source order, over an empty dict. -/
def declaredChain (t ti st de ins : Option JsonV) : List (String × JsonV) :=
  demit "instance" ins (demit "detail" de (demit "status" st
    (demit "title" ti (demit "type" t []))))

/-! ## Dictionary lemmas -/

theorem dlookup_dinsert_self (k : String) (v : JsonV) (d : List (String × JsonV)) :
    dlookup k (dinsert k v d) = some v := by
  induction d with
  | nil => simp [dinsert, dlookup]
  | cons kv rest ih =>
    obtain ⟨k2, v2⟩ := kv
    by_cases h : k2 = k <;> simp [dinsert, dlookup, h, ih]

theorem dlookup_dinsert_ne {k k2 : String} (h : k2 ≠ k) (v : JsonV)
    (d : List (String × JsonV)) : dlookup k (dinsert k2 v d) = dlookup k d := by
  induction d with
  | nil => simp [dinsert, dlookup, h]
  | cons kv rest ih =>
    obtain ⟨k3, v3⟩ := kv
    by_cases h3 : k3 = k2
    · subst h3
      simp [dinsert, dlookup, h]
    · by_cases h4 : k3 = k <;> simp [dinsert, dlookup, h3, h4, Ne.symm h, ih]

theorem dlookup_demit_ne {k k2 : String} (h : k2 ≠ k) (v : Option JsonV)
    (d : List (String × JsonV)) : dlookup k (demit k2 v d) = dlookup k d := by
  cases v with
  | none => rfl
  | some x => simp [demit, dlookup_dinsert_ne h]

theorem dlookup_demit_self {k : String} {d : List (String × JsonV)}
    (h : dlookup k d = none) (v : Option JsonV) : dlookup k (demit k v d) = v := by
  cases v with
  | none => exact h
  | some x => simp [demit, dlookup_dinsert_self]

theorem dinsert_append {k : String} {l1 : List (String × JsonV)}
    (h : dlookup k l1 = none) (x : JsonV) (l2 : List (String × JsonV)) :
    dinsert k x (l1 ++ l2) = l1 ++ dinsert k x l2 := by
  induction l1 with
  | nil => rfl
  | cons kv rest ih =>
    obtain ⟨k2, v2⟩ := kv
    by_cases h2 : k2 = k
    · simp [dlookup, h2] at h
    · simp [dlookup, h2] at h
      simp [dinsert, h2, ih h]

theorem demit_append {k : String} {l1 : List (String × JsonV)}
    (h : dlookup k l1 = none) (v : Option JsonV) (l2 : List (String × JsonV)) :
    demit k v (l1 ++ l2) = l1 ++ demit k v l2 := by
  cases v with
  | none => rfl
  | some x => simp [demit, dinsert_append h]

theorem dlookup_append_right {k : String} {l1 : List (String × JsonV)}
    (h : dlookup k l1 = none) (l2 : List (String × JsonV)) :
    dlookup k (l1 ++ l2) = dlookup k l2 := by
  induction l1 with
  | nil => rfl
  | cons kv rest ih =>
    obtain ⟨k2, v2⟩ := kv
    by_cases h2 : k2 = k
    · simp [dlookup, h2] at h
    · simp [dlookup, h2] at h ⊢
      exact ih h

theorem dremove_append_right {k : String} {l1 : List (String × JsonV)}
    (h : dlookup k l1 = none) (l2 : List (String × JsonV)) :
    dremove k (l1 ++ l2) = l1 ++ dremove k l2 := by
  induction l1 with
  | nil => rfl
  | cons kv rest ih =>
    obtain ⟨k2, v2⟩ := kv
    by_cases h2 : k2 = k
    · simp [dlookup, h2] at h
    · simp [dlookup, h2] at h
      simp [dremove, h2, ih h]

theorem dremove_dinsert_self (k : String) (x : JsonV) (l : List (String × JsonV)) :
    dremove k (dinsert k x l) = dremove k l := by
  induction l with
  | nil => simp [dinsert, dremove]
  | cons kv rest ih =>
    obtain ⟨k2, v2⟩ := kv
    by_cases h : k2 = k <;> simp [dinsert, dremove, h, ih]

theorem dremove_demit_self (k : String) (v : Option JsonV) (l : List (String × JsonV)) :
    dremove k (demit k v l) = dremove k l := by
  cases v with
  | none => rfl
  | some x => simp [demit, dremove_dinsert_self]

theorem dremove_dinsert_ne {k k2 : String} (h : k2 ≠ k) (x : JsonV)
    (l : List (String × JsonV)) : dremove k (dinsert k2 x l) = dinsert k2 x (dremove k l) := by
  induction l with
  | nil => simp [dinsert, dremove, h]
  | cons kv rest ih =>
    obtain ⟨k3, v3⟩ := kv
    by_cases h3 : k3 = k2
    · subst h3
      simp [dinsert, dremove, h]
    · by_cases h4 : k3 = k <;> simp [dinsert, dremove, h3, h4, Ne.symm h, ih]

theorem dremove_demit_ne {k k2 : String} (h : k2 ≠ k) (v : Option JsonV)
    (l : List (String × JsonV)) : dremove k (demit k2 v l) = demit k2 v (dremove k l) := by
  cases v with
  | none => rfl
  | some x => simp [demit, dremove_dinsert_ne h]

theorem dlookup_dremove_ne {k k2 : String} (h : k2 ≠ k)
    (l : List (String × JsonV)) : dlookup k (dremove k2 l) = dlookup k l := by
  induction l with
  | nil => rfl
  | cons kv rest ih =>
    obtain ⟨k3, v3⟩ := kv
    by_cases h3 : k3 = k2
    · subst h3
      simp [dremove, dlookup, h]
    · by_cases h4 : k3 = k <;> simp [dremove, dlookup, h3, h4, Ne.symm h, ih]

theorem dlookup_eq_none_of_not_mem {k : String} {l : List (String × JsonV)}
    (h : k ∉ l.map Prod.fst) : dlookup k l = none := by
  induction l with
  | nil => rfl
  | cons kv rest ih =>
    obtain ⟨k2, v2⟩ := kv
    simp only [List.map_cons, List.mem_cons, not_or] at h
    have hne : ¬k2 = k := fun he => h.1 he.symm
    simp [dlookup, hne, ih h.2]

theorem dlookup_dremove_self {k : String} {l : List (String × JsonV)}
    (h : (l.map Prod.fst).Nodup) : dlookup k (dremove k l) = none := by
  induction l with
  | nil => rfl
  | cons kv rest ih =>
    obtain ⟨k2, v2⟩ := kv
    simp only [List.map_cons, List.nodup_cons] at h
    by_cases h2 : k2 = k
    · subst h2
      simp only [dremove, if_pos rfl]
      exact dlookup_eq_none_of_not_mem h.1
    · simp [dremove, dlookup, h2, ih h.2]

theorem dremove_sublist (k : String) (l : List (String × JsonV)) :
    List.Sublist (dremove k l) l := by
  induction l with
  | nil => exact List.Sublist.refl _
  | cons kv rest ih =>
    obtain ⟨k2, v2⟩ := kv
    by_cases h : k2 = k
    · simp [dremove, h]
    · simpa [dremove, h] using List.Sublist.cons₂ (k2, v2) ih

theorem dremove_keys_nodup {k : String} {l : List (String × JsonV)}
    (h : (l.map Prod.fst).Nodup) : ((dremove k l).map Prod.fst).Nodup :=
  h.sublist (List.Sublist.map Prod.fst (dremove_sublist k l))

theorem dinsert_eq_append {k : String} {l : List (String × JsonV)}
    (h : dlookup k l = none) (x : JsonV) : dinsert k x l = l ++ [(k, x)] := by
  induction l with
  | nil => rfl
  | cons kv rest ih =>
    obtain ⟨k2, v2⟩ := kv
    by_cases h2 : k2 = k
    · simp [dlookup, h2] at h
    · simp [dlookup, h2] at h
      simp [dinsert, h2, ih h]

theorem foldl_dinsert_eq {l acc : List (String × JsonV)}
    (hd : ∀ k ∈ l.map Prod.fst, dlookup k acc = none)
    (hn : (l.map Prod.fst).Nodup) :
    l.foldl (fun acc kv => dinsert kv.1 kv.2 acc) acc = acc ++ l := by
  induction l generalizing acc with
  | nil => simp
  | cons kv rest ih =>
    obtain ⟨k, v⟩ := kv
    simp only [List.map_cons, List.nodup_cons] at hn
    have hk : dlookup k acc = none := hd k (by simp)
    simp only [List.foldl_cons]
    rw [dinsert_eq_append hk v,
      ih (fun k2 hk2 => ?_) hn.2, List.append_assoc]
    · rfl
    · have hne : k ≠ k2 := fun he => hn.1 (he ▸ hk2)
      rw [dlookup_append_right (hd k2 (by simp [hk2]))]
      simp [dlookup, hne]

/-! ## Element-decode lemmas -/

theorem decodeAll_eq_none_iff {α : Type} (f : JsonV → Option α) (xs : List JsonV) :
    decodeAll f xs = none ↔ ∃ x ∈ xs, f x = none := by
  induction xs with
  | nil => simp [decodeAll]
  | cons x rest ih =>
    cases hx : f x with
    | none => simp [decodeAll, hx]
    | some y =>
      cases hr : decodeAll f rest with
      | none =>
        simp only [decodeAll, hx, hr, Option.bind_some, Option.bind_none]
        simpa [hx] using ih.mp hr
      | some ys =>
        simp only [decodeAll, hx, hr, Option.bind_some]
        constructor
        · intro h
          exact absurd h (by simp)
        · rintro ⟨z, hz, hfz⟩
          rcases List.mem_cons.mp hz with hz | hz
          · exact absurd hfz (by simp [hz, hx])
          · exact absurd (ih.mpr ⟨z, hz, hfz⟩) (by simp [hr])

theorem decodeAll_map_encode {α : Type} {f : JsonV → Option α} {g : α → JsonV}
    (h : ∀ a, f (g a) = some a) (l : List α) :
    decodeAll f (l.map g) = some l := by
  induction l with
  | nil => rfl
  | cons a rest ih => simp [decodeAll, h, ih]

/-! ## Per-field wire-key lookup facts about the generated `to_dict`s.
Each says: looking up a field's wire key in the encoded object yields
exactly the field's state — no key for Absent, JSON null for Null, the
encoded value for Present. -/


theorem searchQuery_lookup_index (m : SearchQuery) :
    dlookup "index" m.to_dict = m.index := by
  simp only [SearchQuery.to_dict]
  rw [dlookup_demit_ne (by decide),
    dlookup_demit_ne (by decide),
    dlookup_demit_ne (by decide),
    dlookup_demit_ne (by decide),
    dlookup_demit_ne (by decide),
    dlookup_demit_self (by rfl)]

theorem searchQuery_lookup_query (m : SearchQuery) :
    dlookup "query" m.to_dict = m.query := by
  simp only [SearchQuery.to_dict]
  rw [dlookup_demit_ne (by decide),
    dlookup_demit_ne (by decide),
    dlookup_demit_ne (by decide),
    dlookup_demit_ne (by decide),
    dlookup_demit_self (by
      rw [dlookup_demit_ne (by decide)]
      rfl)]

theorem searchQuery_lookup_filters (m : SearchQuery) :
    dlookup "filters" m.to_dict = m.filters.map SearchQueryFilters.encode := by
  simp only [SearchQuery.to_dict]
  rw [dlookup_demit_ne (by decide),
    dlookup_demit_ne (by decide),
    dlookup_demit_ne (by decide),
    dlookup_demit_self (by
      rw [dlookup_demit_ne (by decide),
        dlookup_demit_ne (by decide)]
      rfl)]

theorem searchQuery_lookup_minRelevance (m : SearchQuery) :
    dlookup "minRelevance" m.to_dict = m.min_relevance := by
  simp only [SearchQuery.to_dict]
  rw [dlookup_demit_ne (by decide),
    dlookup_demit_ne (by decide),
    dlookup_demit_self (by
      rw [dlookup_demit_ne (by decide),
        dlookup_demit_ne (by decide),
        dlookup_demit_ne (by decide)]
      rfl)]

theorem searchQuery_lookup_limit (m : SearchQuery) :
    dlookup "limit" m.to_dict = m.limit := by
  simp only [SearchQuery.to_dict]
  rw [dlookup_demit_ne (by decide),
    dlookup_demit_self (by
      rw [dlookup_demit_ne (by decide),
        dlookup_demit_ne (by decide),
        dlookup_demit_ne (by decide),
        dlookup_demit_ne (by decide)]
      rfl)]

theorem searchQuery_lookup_args (m : SearchQuery) :
    dlookup "args" m.to_dict = m.args.map SearchQueryArgs.encode := by
  simp only [SearchQuery.to_dict]
  rw [dlookup_demit_self (by
      rw [dlookup_demit_ne (by decide),
        dlookup_demit_ne (by decide),
        dlookup_demit_ne (by decide),
        dlookup_demit_ne (by decide),
        dlookup_demit_ne (by decide)]
      rfl)]

theorem searchResult_lookup_query (m : SearchResult) :
    dlookup "query" m.to_dict = m.query := by
  simp only [SearchResult.to_dict]
  rw [dlookup_demit_ne (by decide),
    dlookup_demit_ne (by decide),
    dlookup_demit_self (by rfl)]

theorem searchResult_lookup_noResult (m : SearchResult) :
    dlookup "noResult" m.to_dict = m.no_result := by
  simp only [SearchResult.to_dict]
  rw [dlookup_demit_ne (by decide),
    dlookup_demit_self (by
      rw [dlookup_demit_ne (by decide)]
      rfl)]

theorem searchResult_lookup_results (m : SearchResult) :
    dlookup "results" m.to_dict = m.results.map SearchResultResults.encode := by
  simp only [SearchResult.to_dict]
  rw [dlookup_demit_self (by
      rw [dlookup_demit_ne (by decide),
        dlookup_demit_ne (by decide)]
      rfl)]

theorem partition_lookup_text (m : Partition) :
    dlookup "text" m.to_dict = m.text := by
  simp only [Partition.to_dict]
  rw [dlookup_demit_ne (by decide),
    dlookup_demit_ne (by decide),
    dlookup_demit_ne (by decide),
    dlookup_demit_ne (by decide),
    dlookup_demit_ne (by decide),
    dlookup_demit_self (by rfl)]

theorem partition_lookup_relevance (m : Partition) :
    dlookup "relevance" m.to_dict = m.relevance := by
  simp only [Partition.to_dict]
  rw [dlookup_demit_ne (by decide),
    dlookup_demit_ne (by decide),
    dlookup_demit_ne (by decide),
    dlookup_demit_ne (by decide),
    dlookup_demit_self (by
      rw [dlookup_demit_ne (by decide)]
      rfl)]

theorem partition_lookup_partitionNumber (m : Partition) :
    dlookup "partitionNumber" m.to_dict = m.partition_number := by
  simp only [Partition.to_dict]
  rw [dlookup_demit_ne (by decide),
    dlookup_demit_ne (by decide),
    dlookup_demit_ne (by decide),
    dlookup_demit_self (by
      rw [dlookup_demit_ne (by decide),
        dlookup_demit_ne (by decide)]
      rfl)]

theorem partition_lookup_sectionNumber (m : Partition) :
    dlookup "sectionNumber" m.to_dict = m.section_number := by
  simp only [Partition.to_dict]
  rw [dlookup_demit_ne (by decide),
    dlookup_demit_ne (by decide),
    dlookup_demit_self (by
      rw [dlookup_demit_ne (by decide),
        dlookup_demit_ne (by decide),
        dlookup_demit_ne (by decide)]
      rfl)]

theorem partition_lookup_lastUpdate (m : Partition) :
    dlookup "lastUpdate" m.to_dict = m.last_update.map (fun t => JsonV.str t.isoformat) := by
  simp only [Partition.to_dict]
  rw [dlookup_demit_ne (by decide),
    dlookup_demit_self (by
      rw [dlookup_demit_ne (by decide),
        dlookup_demit_ne (by decide),
        dlookup_demit_ne (by decide),
        dlookup_demit_ne (by decide)]
      rfl)]

theorem partition_lookup_tags (m : Partition) :
    dlookup "tags" m.to_dict = m.tags.map PartitionTags.encode := by
  simp only [Partition.to_dict]
  rw [dlookup_demit_self (by
      rw [dlookup_demit_ne (by decide),
        dlookup_demit_ne (by decide),
        dlookup_demit_ne (by decide),
        dlookup_demit_ne (by decide),
        dlookup_demit_ne (by decide)]
      rfl)]

theorem citation_lookup_link (m : Citation) :
    dlookup "link" m.to_dict = m.link := by
  simp only [Citation.to_dict]
  rw [dlookup_demit_ne (by decide),
    dlookup_demit_ne (by decide),
    dlookup_demit_ne (by decide),
    dlookup_demit_ne (by decide),
    dlookup_demit_ne (by decide),
    dlookup_demit_ne (by decide),
    dlookup_demit_ne (by decide),
    dlookup_demit_self (by rfl)]

theorem citation_lookup_index (m : Citation) :
    dlookup "index" m.to_dict = m.index := by
  simp only [Citation.to_dict]
  rw [dlookup_demit_ne (by decide),
    dlookup_demit_ne (by decide),
    dlookup_demit_ne (by decide),
    dlookup_demit_ne (by decide),
    dlookup_demit_ne (by decide),
    dlookup_demit_ne (by decide),
    dlookup_demit_self (by
      rw [dlookup_demit_ne (by decide)]
      rfl)]

theorem citation_lookup_documentId (m : Citation) :
    dlookup "documentId" m.to_dict = m.document_id := by
  simp only [Citation.to_dict]
  rw [dlookup_demit_ne (by decide),
    dlookup_demit_ne (by decide),
    dlookup_demit_ne (by decide),
    dlookup_demit_ne (by decide),
    dlookup_demit_ne (by decide),
    dlookup_demit_self (by
      rw [dlookup_demit_ne (by decide),
        dlookup_demit_ne (by decide)]
      rfl)]

theorem citation_lookup_fileId (m : Citation) :
    dlookup "fileId" m.to_dict = m.file_id := by
  simp only [Citation.to_dict]
  rw [dlookup_demit_ne (by decide),
    dlookup_demit_ne (by decide),
    dlookup_demit_ne (by decide),
    dlookup_demit_ne (by decide),
    dlookup_demit_self (by
      rw [dlookup_demit_ne (by decide),
        dlookup_demit_ne (by decide),
        dlookup_demit_ne (by decide)]
      rfl)]

theorem citation_lookup_sourceContentType (m : Citation) :
    dlookup "sourceContentType" m.to_dict = m.source_content_type := by
  simp only [Citation.to_dict]
  rw [dlookup_demit_ne (by decide),
    dlookup_demit_ne (by decide),
    dlookup_demit_ne (by decide),
    dlookup_demit_self (by
      rw [dlookup_demit_ne (by decide),
        dlookup_demit_ne (by decide),
        dlookup_demit_ne (by decide),
        dlookup_demit_ne (by decide)]
      rfl)]

theorem citation_lookup_sourceName (m : Citation) :
    dlookup "sourceName" m.to_dict = m.source_name := by
  simp only [Citation.to_dict]
  rw [dlookup_demit_ne (by decide),
    dlookup_demit_ne (by decide),
    dlookup_demit_self (by
      rw [dlookup_demit_ne (by decide),
        dlookup_demit_ne (by decide),
        dlookup_demit_ne (by decide),
        dlookup_demit_ne (by decide),
        dlookup_demit_ne (by decide)]
      rfl)]

theorem citation_lookup_sourceUrl (m : Citation) :
    dlookup "sourceUrl" m.to_dict = m.source_url := by
  simp only [Citation.to_dict]
  rw [dlookup_demit_ne (by decide),
    dlookup_demit_self (by
      rw [dlookup_demit_ne (by decide),
        dlookup_demit_ne (by decide),
        dlookup_demit_ne (by decide),
        dlookup_demit_ne (by decide),
        dlookup_demit_ne (by decide),
        dlookup_demit_ne (by decide)]
      rfl)]

theorem citation_lookup_partitions (m : Citation) :
    dlookup "partitions" m.to_dict = m.partitions.map CitationPartitions.encode := by
  simp only [Citation.to_dict]
  rw [dlookup_demit_self (by
      rw [dlookup_demit_ne (by decide),
        dlookup_demit_ne (by decide),
        dlookup_demit_ne (by decide),
        dlookup_demit_ne (by decide),
        dlookup_demit_ne (by decide),
        dlookup_demit_ne (by decide),
        dlookup_demit_ne (by decide)]
      rfl)]

theorem dataPipelineStatus_lookup_completed (m : DataPipelineStatus) :
    dlookup "completed" m.to_dict = m.completed := by
  simp only [DataPipelineStatus.to_dict]
  rw [dlookup_demit_ne (by decide),
    dlookup_demit_ne (by decide),
    dlookup_demit_ne (by decide),
    dlookup_demit_ne (by decide),
    dlookup_demit_ne (by decide),
    dlookup_demit_ne (by decide),
    dlookup_demit_ne (by decide),
    dlookup_demit_ne (by decide),
    dlookup_demit_ne (by decide),
    dlookup_demit_self (by rfl)]

theorem dataPipelineStatus_lookup_empty (m : DataPipelineStatus) :
    dlookup "empty" m.to_dict = m.empty := by
  simp only [DataPipelineStatus.to_dict]
  rw [dlookup_demit_ne (by decide),
    dlookup_demit_ne (by decide),
    dlookup_demit_ne (by decide),
    dlookup_demit_ne (by decide),
    dlookup_demit_ne (by decide),
    dlookup_demit_ne (by decide),
    dlookup_demit_ne (by decide),
    dlookup_demit_ne (by decide),
    dlookup_demit_self (by
      rw [dlookup_demit_ne (by decide)]
      rfl)]

theorem dataPipelineStatus_lookup_index (m : DataPipelineStatus) :
    dlookup "index" m.to_dict = m.index := by
  simp only [DataPipelineStatus.to_dict]
  rw [dlookup_demit_ne (by decide),
    dlookup_demit_ne (by decide),
    dlookup_demit_ne (by decide),
    dlookup_demit_ne (by decide),
    dlookup_demit_ne (by decide),
    dlookup_demit_ne (by decide),
    dlookup_demit_ne (by decide),
    dlookup_demit_self (by
      rw [dlookup_demit_ne (by decide),
        dlookup_demit_ne (by decide)]
      rfl)]

theorem dataPipelineStatus_lookup_document_id (m : DataPipelineStatus) :
    dlookup "document_id" m.to_dict = m.document_id := by
  simp only [DataPipelineStatus.to_dict]
  rw [dlookup_demit_ne (by decide),
    dlookup_demit_ne (by decide),
    dlookup_demit_ne (by decide),
    dlookup_demit_ne (by decide),
    dlookup_demit_ne (by decide),
    dlookup_demit_ne (by decide),
    dlookup_demit_self (by
      rw [dlookup_demit_ne (by decide),
        dlookup_demit_ne (by decide),
        dlookup_demit_ne (by decide)]
      rfl)]

theorem dataPipelineStatus_lookup_tags (m : DataPipelineStatus) :
    dlookup "tags" m.to_dict = m.tags.map DataPipelineStatusTags.encode := by
  simp only [DataPipelineStatus.to_dict]
  rw [dlookup_demit_ne (by decide),
    dlookup_demit_ne (by decide),
    dlookup_demit_ne (by decide),
    dlookup_demit_ne (by decide),
    dlookup_demit_ne (by decide),
    dlookup_demit_self (by
      rw [dlookup_demit_ne (by decide),
        dlookup_demit_ne (by decide),
        dlookup_demit_ne (by decide),
        dlookup_demit_ne (by decide)]
      rfl)]

theorem dataPipelineStatus_lookup_creation (m : DataPipelineStatus) :
    dlookup "creation" m.to_dict = m.creation.map (fun t => JsonV.str t.isoformat) := by
  simp only [DataPipelineStatus.to_dict]
  rw [dlookup_demit_ne (by decide),
    dlookup_demit_ne (by decide),
    dlookup_demit_ne (by decide),
    dlookup_demit_ne (by decide),
    dlookup_demit_self (by
      rw [dlookup_demit_ne (by decide),
        dlookup_demit_ne (by decide),
        dlookup_demit_ne (by decide),
        dlookup_demit_ne (by decide),
        dlookup_demit_ne (by decide)]
      rfl)]

theorem dataPipelineStatus_lookup_last_update (m : DataPipelineStatus) :
    dlookup "last_update" m.to_dict = m.last_update.map (fun t => JsonV.str t.isoformat) := by
  simp only [DataPipelineStatus.to_dict]
  rw [dlookup_demit_ne (by decide),
    dlookup_demit_ne (by decide),
    dlookup_demit_ne (by decide),
    dlookup_demit_self (by
      rw [dlookup_demit_ne (by decide),
        dlookup_demit_ne (by decide),
        dlookup_demit_ne (by decide),
        dlookup_demit_ne (by decide),
        dlookup_demit_ne (by decide),
        dlookup_demit_ne (by decide)]
      rfl)]

theorem dataPipelineStatus_lookup_steps (m : DataPipelineStatus) :
    dlookup "steps" m.to_dict = m.steps := by
  simp only [DataPipelineStatus.to_dict]
  rw [dlookup_demit_ne (by decide),
    dlookup_demit_ne (by decide),
    dlookup_demit_self (by
      rw [dlookup_demit_ne (by decide),
        dlookup_demit_ne (by decide),
        dlookup_demit_ne (by decide),
        dlookup_demit_ne (by decide),
        dlookup_demit_ne (by decide),
        dlookup_demit_ne (by decide),
        dlookup_demit_ne (by decide)]
      rfl)]

theorem dataPipelineStatus_lookup_remaining_steps (m : DataPipelineStatus) :
    dlookup "remaining_steps" m.to_dict = m.remaining_steps := by
  simp only [DataPipelineStatus.to_dict]
  rw [dlookup_demit_ne (by decide),
    dlookup_demit_self (by
      rw [dlookup_demit_ne (by decide),
        dlookup_demit_ne (by decide),
        dlookup_demit_ne (by decide),
        dlookup_demit_ne (by decide),
        dlookup_demit_ne (by decide),
        dlookup_demit_ne (by decide),
        dlookup_demit_ne (by decide),
        dlookup_demit_ne (by decide)]
      rfl)]

theorem dataPipelineStatus_lookup_completed_steps (m : DataPipelineStatus) :
    dlookup "completed_steps" m.to_dict = m.completed_steps := by
  simp only [DataPipelineStatus.to_dict]
  rw [dlookup_demit_self (by
      rw [dlookup_demit_ne (by decide),
        dlookup_demit_ne (by decide),
        dlookup_demit_ne (by decide),
        dlookup_demit_ne (by decide),
        dlookup_demit_ne (by decide),
        dlookup_demit_ne (by decide),
        dlookup_demit_ne (by decide),
        dlookup_demit_ne (by decide),
        dlookup_demit_ne (by decide)]
      rfl)]

theorem demit_append_nil {k : String} {l1 : List (String × JsonV)}
    (h : dlookup k l1 = none) (v : Option JsonV) :
    demit k v l1 = l1 ++ demit k v [] := by
  simpa using demit_append h v ([] : List (String × JsonV))

theorem dlookup_append_left {k : String} {l1 : List (String × JsonV)} {v : JsonV}
    (h : dlookup k l1 = some v) (l2 : List (String × JsonV)) :
    dlookup k (l1 ++ l2) = some v := by
  induction l1 with
  | nil => simp [dlookup] at h
  | cons kv rest ih =>
    obtain ⟨k2, v2⟩ := kv
    by_cases h2 : k2 = k
    · simp [dlookup, h2] at h ⊢
      exact h
    · simp [dlookup, h2] at h ⊢
      exact ih h

/-! ## `declaredChain` lookup and removal facts -/

theorem declaredChain_lookup_type (t ti st de ins : Option JsonV) :
    dlookup "type" (declaredChain t ti st de ins) = t := by
  simp only [declaredChain]
  rw [dlookup_demit_ne (by decide), dlookup_demit_ne (by decide),
    dlookup_demit_ne (by decide), dlookup_demit_ne (by decide),
    dlookup_demit_self (by rfl)]

theorem declaredChain_lookup_title (t ti st de ins : Option JsonV) :
    dlookup "title" (declaredChain t ti st de ins) = ti := by
  simp only [declaredChain]
  rw [dlookup_demit_ne (by decide), dlookup_demit_ne (by decide),
    dlookup_demit_ne (by decide),
    dlookup_demit_self (by rw [dlookup_demit_ne (by decide)]; rfl)]

theorem declaredChain_lookup_status (t ti st de ins : Option JsonV) :
    dlookup "status" (declaredChain t ti st de ins) = st := by
  simp only [declaredChain]
  rw [dlookup_demit_ne (by decide), dlookup_demit_ne (by decide),
    dlookup_demit_self (by
      rw [dlookup_demit_ne (by decide), dlookup_demit_ne (by decide)]
      rfl)]

theorem declaredChain_lookup_detail (t ti st de ins : Option JsonV) :
    dlookup "detail" (declaredChain t ti st de ins) = de := by
  simp only [declaredChain]
  rw [dlookup_demit_ne (by decide),
    dlookup_demit_self (by
      rw [dlookup_demit_ne (by decide), dlookup_demit_ne (by decide),
        dlookup_demit_ne (by decide)]
      rfl)]

theorem declaredChain_lookup_instance (t ti st de ins : Option JsonV) :
    dlookup "instance" (declaredChain t ti st de ins) = ins := by
  simp only [declaredChain]
  rw [dlookup_demit_self (by
    rw [dlookup_demit_ne (by decide), dlookup_demit_ne (by decide),
      dlookup_demit_ne (by decide), dlookup_demit_ne (by decide)]
    rfl)]

theorem declaredChain_lookup_other {k : String} (hk1 : k ≠ "type")
    (hk2 : k ≠ "title") (hk3 : k ≠ "status") (hk4 : k ≠ "detail")
    (hk5 : k ≠ "instance") (t ti st de ins : Option JsonV) :
    dlookup k (declaredChain t ti st de ins) = none := by
  simp only [declaredChain]
  rw [dlookup_demit_ne (Ne.symm hk5), dlookup_demit_ne (Ne.symm hk4),
    dlookup_demit_ne (Ne.symm hk3), dlookup_demit_ne (Ne.symm hk2),
    dlookup_demit_ne (Ne.symm hk1)]
  rfl

theorem declaredChain_remove_type (t ti st de ins : Option JsonV) :
    dremove "type" (declaredChain t ti st de ins) = declaredChain none ti st de ins := by
  simp only [declaredChain]
  rw [dremove_demit_ne (by decide), dremove_demit_ne (by decide),
    dremove_demit_ne (by decide), dremove_demit_ne (by decide),
    dremove_demit_self]
  rfl

theorem declaredChain_remove_title (t ti st de ins : Option JsonV) :
    dremove "title" (declaredChain t ti st de ins) = declaredChain t none st de ins := by
  simp only [declaredChain]
  rw [dremove_demit_ne (by decide), dremove_demit_ne (by decide),
    dremove_demit_ne (by decide), dremove_demit_self, dremove_demit_ne (by decide)]
  rfl

theorem declaredChain_remove_status (t ti st de ins : Option JsonV) :
    dremove "status" (declaredChain t ti st de ins) = declaredChain t ti none de ins := by
  simp only [declaredChain]
  rw [dremove_demit_ne (by decide), dremove_demit_ne (by decide),
    dremove_demit_self, dremove_demit_ne (by decide), dremove_demit_ne (by decide)]
  rfl

theorem declaredChain_remove_detail (t ti st de ins : Option JsonV) :
    dremove "detail" (declaredChain t ti st de ins) = declaredChain t ti st none ins := by
  simp only [declaredChain]
  rw [dremove_demit_ne (by decide), dremove_demit_self,
    dremove_demit_ne (by decide), dremove_demit_ne (by decide),
    dremove_demit_ne (by decide)]
  rfl

theorem declaredChain_remove_instance (t ti st de ins : Option JsonV) :
    dremove "instance" (declaredChain t ti st de ins) = declaredChain t ti st de none := by
  simp only [declaredChain]
  rw [dremove_demit_self, dremove_demit_ne (by decide),
    dremove_demit_ne (by decide), dremove_demit_ne (by decide),
    dremove_demit_ne (by decide)]
  rfl

/-- `ProblemDetails.from_dict` in lookup normal form: each declared
field reads its wire key from the original object (each pop only
removes the previously popped, distinct keys), and the captured
remainder is the object minus the five declared keys. -/
theorem ProblemDetails.from_dict_eq (d : List (String × JsonV)) :
    ProblemDetails.from_dict d =
      { type_ := dlookup "type" d
        title := dlookup "title" d
        status := dlookup "status" d
        detail := dlookup "detail" d
        instance_ := dlookup "instance" d
        additional_properties :=
          dremove "instance" (dremove "detail" (dremove "status"
            (dremove "title" (dremove "type" d)))) } := by
  simp only [ProblemDetails.from_dict]
  rw [dlookup_dremove_ne (by decide), dlookup_dremove_ne (by decide),
    dlookup_dremove_ne (by decide), dlookup_dremove_ne (by decide),
    dlookup_dremove_ne (by decide), dlookup_dremove_ne (by decide),
    dlookup_dremove_ne (by decide), dlookup_dremove_ne (by decide),
    dlookup_dremove_ne (by decide), dlookup_dremove_ne (by decide)]

/-- `ProblemDetails.to_dict` splits into the captured fields followed by
the declared-field chain whenever the captured keys avoid the declared
wire keys (always true for a dict produced by `from_dict`). -/
theorem ProblemDetails.to_dict_eq (p : ProblemDetails)
    (hn : (p.additional_properties.map Prod.fst).Nodup)
    (ha : ∀ k ∈ ["type", "title", "status", "detail", "instance"],
      dlookup k p.additional_properties = none) :
    p.to_dict = p.additional_properties ++
      declaredChain p.type_ p.title p.status p.detail p.instance_ := by
  simp only [ProblemDetails.to_dict, declaredChain]
  rw [foldl_dinsert_eq
      (fun k _ => (rfl : dlookup k ([] : List (String × JsonV)) = none)) hn,
    List.nil_append]
  rw [demit_append_nil (ha "type" (by simp))]
  rw [demit_append (ha "title" (by simp)), demit_append (ha "status" (by simp)),
    demit_append (ha "detail" (by simp)), demit_append (ha "instance" (by simp))]

/-! ## Union-field encode/decode inverses -/

theorem SearchQueryFiltersType0Item.decode_encode (a : SearchQueryFiltersType0Item) :
    SearchQueryFiltersType0Item.decode (.obj a.to_dict) = some a := by
  cases a
  rfl

theorem SearchQuery.parse_filters_encode {f : Option SearchQueryFilters}
    (hf : SearchQueryFilters.isDeclaredShape f = true) :
    SearchQuery.parse_filters (f.map SearchQueryFilters.encode) = f := by
  cases f with
  | none => rfl
  | some ff =>
    cases ff with
    | parsed items =>
      simp only [Option.map_some', SearchQueryFilters.encode, SearchQuery.parse_filters,
        decodeAll_map_encode SearchQueryFiltersType0Item.decode_encode]
    | raw v =>
      simp only [SearchQueryFilters.isDeclaredShape] at hf
      have hv : v = JsonV.null := of_decide_eq_true hf
      subst hv
      rfl

theorem SearchQuery.parse_args_encode {a : Option SearchQueryArgs}
    (ha : SearchQueryArgs.isDeclaredShape a = true) :
    SearchQuery.parse_args (a.map SearchQueryArgs.encode) = a := by
  cases a with
  | none => rfl
  | some aa =>
    cases aa with
    | parsed x =>
      cases x
      rfl
    | raw v =>
      simp only [SearchQueryArgs.isDeclaredShape] at ha
      have hv : v = JsonV.null := of_decide_eq_true ha
      subst hv
      rfl

/-! ## Claim theorems -/

/-- C8: encoding `SearchQuery{index: Present "default", query: Present
"test", filters: Absent, min_relevance: Present 0.5, limit: Present 3,
args: Absent}` with `to_dict` produces exactly the object
`{"index": "default", "query": "test", "minRelevance": 0.5,
"limit": 3}`, with no `"filters"` and no `"args"` key. -/
theorem c8_search_query_concrete_encoding :
    SearchQuery.to_dict
      { index := some (.str "default"), query := some (.str "test"),
        filters := none, min_relevance := some (.num (0.5 : Rat)),
        limit := some (.num (3 : Rat)), args := none } =
      [("index", JsonV.str "default"), ("query", JsonV.str "test"),
        ("minRelevance", JsonV.num (0.5 : Rat)), ("limit", JsonV.num (3 : Rat))] := by
  rfl

/-- C7 counterexample: the claim says every generated model carries
`document_id` on the wire as the camelCase key `documentId`, but
`DataPipelineStatus.to_dict` emits it under the snake_case wire key
`document_id` and emits no `documentId` key at all. -/
theorem c7_counterexample_snake_case_wire_key :
    dlookup "documentId"
      (DataPipelineStatus.to_dict { document_id := some (JsonV.str "doc1") }) = none ∧
    dlookup "document_id"
      (DataPipelineStatus.to_dict { document_id := some (JsonV.str "doc1") }) =
      some (JsonV.str "doc1") := by
  exact ⟨rfl, rfl⟩

/-- C7 amended: every declared field is carried on the wire under a
fixed per-field key, used identically by `to_dict` and `from_dict`; for
`Citation` (as for most models) the key is the camelCase form
`documentId` of the internal `document_id`, but for
`DataPipelineStatus` the wire key is the snake_case internal name
`document_id` itself, and the camelCase spelling is neither emitted nor
consulted. -/
theorem c7_amended_fixed_per_field_wire_keys :
    (∀ m : Citation, dlookup "documentId" m.to_dict = m.document_id) ∧
    (∀ v : JsonV, Citation.from_dict [("documentId", v)] =
      { document_id := some v }) ∧
    (∀ m : DataPipelineStatus,
      dlookup "document_id" m.to_dict = m.document_id ∧
      dlookup "documentId" m.to_dict = none) ∧
    (∀ v : JsonV, DataPipelineStatus.from_dict [("document_id", v)] =
      some { document_id := some v }) ∧
    (∀ v : JsonV, DataPipelineStatus.from_dict [("documentId", v)] = some {}) := by
  refine ⟨citation_lookup_documentId, fun v => rfl, fun m => ⟨dataPipelineStatus_lookup_document_id m, ?_⟩,
    fun v => rfl, fun v => rfl⟩
  simp only [DataPipelineStatus.to_dict]
  rw [dlookup_demit_ne (by decide), dlookup_demit_ne (by decide),
    dlookup_demit_ne (by decide), dlookup_demit_ne (by decide),
    dlookup_demit_ne (by decide), dlookup_demit_ne (by decide),
    dlookup_demit_ne (by decide), dlookup_demit_ne (by decide),
    dlookup_demit_ne (by decide), dlookup_demit_ne (by decide)]
  rfl

/-- C1 counterexample: the encode→decode round-trip is not the identity
for every valid instance. A valid `ProblemDetails` whose captured
`additional_properties` contains the declared wire key `"type"` loses
that entry: encoding emits `{"type": "about:blank"}` and decoding files
it under the declared `type_` field, leaving `additional_properties`
empty. -/
theorem c1_counterexample_roundtrip :
    ProblemDetails.from_dict (ProblemDetails.to_dict
      { additional_properties := [("type", JsonV.str "about:blank")] }) ≠
      { additional_properties := [("type", JsonV.str "about:blank")] } := by
  decide

/-- C1 amended: `from_dict (to_dict m) = m` holds for `SearchQuery`
instances whose union fields hold a declared shape (Absent, None, or
the structured value — not a raw fallback value), and for
`ProblemDetails` instances whose captured `additional_properties` keys
avoid the five declared wire keys (and are unique, as a Python dict's
keys are). -/
theorem c1_amended_roundtrip :
    (∀ m : SearchQuery,
      SearchQueryFilters.isDeclaredShape m.filters = true →
      SearchQueryArgs.isDeclaredShape m.args = true →
      SearchQuery.from_dict m.to_dict = m) ∧
    (∀ p : ProblemDetails,
      (p.additional_properties.map Prod.fst).Nodup →
      (∀ k ∈ ["type", "title", "status", "detail", "instance"],
        dlookup k p.additional_properties = none) →
      ProblemDetails.from_dict p.to_dict = p) := by
  constructor
  · intro m hf ha
    simp only [SearchQuery.from_dict, searchQuery_lookup_index, searchQuery_lookup_query,
      searchQuery_lookup_filters, searchQuery_lookup_minRelevance, searchQuery_lookup_limit,
      searchQuery_lookup_args, SearchQuery.parse_filters_encode hf,
      SearchQuery.parse_args_encode ha]
  · intro p hn ha
    have haT := ha "type" (by simp)
    have haTi := ha "title" (by simp)
    have haS := ha "status" (by simp)
    have haD := ha "detail" (by simp)
    have haI := ha "instance" (by simp)
    rw [ProblemDetails.to_dict_eq p hn ha, ProblemDetails.from_dict_eq]
    rw [dlookup_append_right haT, dlookup_append_right haTi,
      dlookup_append_right haS, dlookup_append_right haD, dlookup_append_right haI,
      declaredChain_lookup_type, declaredChain_lookup_title, declaredChain_lookup_status,
      declaredChain_lookup_detail, declaredChain_lookup_instance]
    rw [dremove_append_right haT, declaredChain_remove_type,
      dremove_append_right haTi, declaredChain_remove_title,
      dremove_append_right haS, declaredChain_remove_status,
      dremove_append_right haD, declaredChain_remove_detail,
      dremove_append_right haI, declaredChain_remove_instance]
    simp only [declaredChain, demit, List.append_nil]

/-- C1 witness: the amended round-trip applied to concrete instances —
a `SearchQuery` exercising Absent, Null and Present states (structured
filters, null args), and a `ProblemDetails` with a captured unknown
field. -/
theorem c1_amended_roundtrip_witness :
    SearchQuery.from_dict (SearchQuery.to_dict
      { index := some (.str "idx"), query := some .null,
        filters := some (.parsed [⟨[("lang", JsonV.str "en")]⟩]),
        min_relevance := some (.num (0.5 : Rat)), limit := none,
        args := some (.raw .null) }) =
      { index := some (.str "idx"), query := some .null,
        filters := some (.parsed [⟨[("lang", JsonV.str "en")]⟩]),
        min_relevance := some (.num (0.5 : Rat)), limit := none,
        args := some (.raw .null) } ∧
    ProblemDetails.from_dict (ProblemDetails.to_dict
      { type_ := some (.str "about:blank"), status := some (.num (400 : Rat)),
        additional_properties := [("traceId", JsonV.str "t1")] }) =
      { type_ := some (.str "about:blank"), status := some (.num (400 : Rat)),
        additional_properties := [("traceId", JsonV.str "t1")] } :=
  ⟨c1_amended_roundtrip.1 _ (by decide) (by decide),
    c1_amended_roundtrip.2 _ (by decide) (by decide)⟩

/-- C2 counterexample: decoding a present JSON null is claimed to yield
the Null state for every field, including the date-time fields; but
`Partition.from_dict`, `DataPipelineStatus.from_dict` feed a present
`lastUpdate`/`creation`/`last_update` value straight to `isoparse`,
which raises on null — the whole decode fails instead of producing a
Null field. -/
theorem c2_counterexample_datetime_null :
    Partition.from_dict [("lastUpdate", JsonV.null)] = none ∧
    DataPipelineStatus.from_dict [("creation", JsonV.null)] = none ∧
    DataPipelineStatus.from_dict [("last_update", JsonV.null)] = none := by
  exact ⟨rfl, rfl, rfl⟩

/-- C2 amended: the tri-state rules hold for the ordinary fields —
encoding Absent emits no key, encoding Null emits the key with null,
decoding a missing key yields Absent, a present null yields Null, any
other present value yields Present of it — but the date-time fields
(`Partition.last_update`, `DataPipelineStatus.creation`,
`DataPipelineStatus.last_update`) are two-state: a missing key yields
Absent, a present ISO-8601 string yields Present of the parsed value,
and a present null (or any other unparsable value) fails the whole
decode rather than yielding Null. -/
theorem c2_amended_tristate_fidelity :
    (SearchResult.from_dict [] = {} ∧ Partition.from_dict [] = some {}) ∧
    (∀ v : JsonV, (SearchResult.from_dict [("query", v)]).query = some v) ∧
    (∀ m : SearchResult, dlookup "query" m.to_dict = m.query) ∧
    (∀ m : Partition, dlookup "text" m.to_dict = m.text) ∧
    (∀ m : Partition, dlookup "lastUpdate" m.to_dict =
      m.last_update.map (fun t => JsonV.str t.isoformat)) ∧
    (∀ v : JsonV, isoparse v = none →
      Partition.from_dict [("lastUpdate", v)] = none) ∧
    (∀ s : String, isoValid s = true →
      Partition.from_dict [("lastUpdate", JsonV.str s)] =
        some { last_update := some ⟨s⟩ }) ∧
    (∀ v : JsonV, isoparse v = none →
      DataPipelineStatus.from_dict [("creation", v)] = none ∧
      DataPipelineStatus.from_dict [("last_update", v)] = none) ∧
    (∀ s : String, isoValid s = true →
      DataPipelineStatus.from_dict [("creation", JsonV.str s)] =
        some { creation := some ⟨s⟩ }) := by
  refine ⟨⟨rfl, rfl⟩, fun v => rfl, searchResult_lookup_query, partition_lookup_text,
    partition_lookup_lastUpdate, fun v hv => ?_, fun s hs => ?_,
    fun v hv => ⟨?_, ?_⟩, fun s hs => ?_⟩
  · simp [Partition.from_dict, dlookup, hv]
  · simp [Partition.from_dict, dlookup, isoparse, hs, Partition.parse_tags]
  · simp [DataPipelineStatus.from_dict, dlookup, hv]
  · simp [DataPipelineStatus.from_dict, dlookup, hv]
  · simp [DataPipelineStatus.from_dict, dlookup, isoparse, hs, DataPipelineStatus.parse_tags]

/-- C2 witness: the amended rules applied at concrete inputs — a null
`lastUpdate` fails the `Partition` decode, a well-formed ISO string
parses, and the same for `DataPipelineStatus.creation`. -/
theorem c2_amended_tristate_fidelity_witness :
    Partition.from_dict [("lastUpdate", JsonV.null)] = none ∧
    Partition.from_dict [("lastUpdate", JsonV.str "2024-01-01T00:00:00")] =
      some { last_update := some ⟨"2024-01-01T00:00:00"⟩ } ∧
    DataPipelineStatus.from_dict [("creation", JsonV.num (5 : Rat))] = none ∧
    DataPipelineStatus.from_dict [("creation", JsonV.str "2024-06-15")] =
      some { creation := some ⟨"2024-06-15"⟩ } :=
  ⟨c2_amended_tristate_fidelity.2.2.2.2.2.1 JsonV.null rfl,
    c2_amended_tristate_fidelity.2.2.2.2.2.2.1 "2024-01-01T00:00:00" (by decide),
    (c2_amended_tristate_fidelity.2.2.2.2.2.2.2.1 (JsonV.num (5 : Rat)) rfl).1,
    c2_amended_tristate_fidelity.2.2.2.2.2.2.2.2 "2024-06-15" (by decide)⟩

/-- C3: the polymorphic union-field parsers are total — for a missing
key they return the Absent marker, for a present null the Null marker,
and for every other present value they return either a structured
decode or the raw input value unchanged; no input makes them fail. -/
theorem c3_fallback_totality :
    (SearchResult.parse_results none = none ∧
      SearchResult.parse_results (some .null) = some (.raw .null) ∧
      ∀ v : JsonV,
        (∃ items, SearchResult.parse_results (some v) = some (.parsed items)) ∨
        SearchResult.parse_results (some v) = some (.raw v)) ∧
    (SearchQuery.parse_args none = none ∧
      SearchQuery.parse_args (some .null) = some (.raw .null) ∧
      ∀ v : JsonV,
        (∃ a, SearchQuery.parse_args (some v) = some (.parsed a)) ∨
        SearchQuery.parse_args (some v) = some (.raw v)) ∧
    (Citation.parse_partitions none = none ∧
      Citation.parse_partitions (some .null) = some (.raw .null) ∧
      ∀ v : JsonV,
        (∃ items, Citation.parse_partitions (some v) = some (.parsed items)) ∨
        Citation.parse_partitions (some v) = some (.raw v)) := by
  refine ⟨⟨rfl, rfl, fun v => ?_⟩, ⟨rfl, rfl, fun v => ?_⟩, ⟨rfl, rfl, fun v => ?_⟩⟩
  · cases v with
    | arr xs =>
      cases h : decodeAll Citation.decode xs with
      | none => exact Or.inr (by simp [SearchResult.parse_results, h])
      | some items => exact Or.inl ⟨items, by simp [SearchResult.parse_results, h]⟩
    | obj fs => exact Or.inr rfl
    | null => exact Or.inr rfl
    | bool b => exact Or.inr rfl
    | num q => exact Or.inr rfl
    | str s => exact Or.inr rfl
  · cases v with
    | obj fs => exact Or.inl ⟨⟨fs⟩, rfl⟩
    | arr xs => exact Or.inr rfl
    | null => exact Or.inr rfl
    | bool b => exact Or.inr rfl
    | num q => exact Or.inr rfl
    | str s => exact Or.inr rfl
  · cases v with
    | arr xs =>
      cases h : decodeAll Partition.decode xs with
      | none => exact Or.inr (by simp [Citation.parse_partitions, h])
      | some items => exact Or.inl ⟨items, by simp [Citation.parse_partitions, h]⟩
    | obj fs => exact Or.inr rfl
    | null => exact Or.inr rfl
    | bool b => exact Or.inr rfl
    | num q => exact Or.inr rfl
    | str s => exact Or.inr rfl

/-- C6: every list-of-object union candidate is all-or-nothing — the
structured list is produced exactly when every element of the input
array decodes under the candidate's element model; if any single
element fails, the whole candidate is rejected (no partial list) and
the parser falls back to the raw array. Shown for `Citation.partitions`,
`MemoryAnswer.relevant_sources`, `MemoryAnswer.token_usage` and
`SearchResult.results`. -/
theorem c6_list_union_atomicity :
    (∀ xs : List JsonV, (∃ x ∈ xs, Partition.decode x = none) →
      Citation.parse_partitions (some (.arr xs)) = some (.raw (.arr xs))) ∧
    (∀ (xs : List JsonV) (items : List Partition),
      decodeAll Partition.decode xs = some items →
      Citation.parse_partitions (some (.arr xs)) = some (.parsed items)) ∧
    (∀ xs : List JsonV, (∃ x ∈ xs, Citation.decode x = none) →
      MemoryAnswer.parse_relevant_sources (some (.arr xs)) = some (.raw (.arr xs))) ∧
    (∀ (xs : List JsonV) (items : List Citation),
      decodeAll Citation.decode xs = some items →
      MemoryAnswer.parse_relevant_sources (some (.arr xs)) = some (.parsed items)) ∧
    (∀ xs : List JsonV, (∃ x ∈ xs, TokenUsage.decode x = none) →
      MemoryAnswer.parse_token_usage (some (.arr xs)) = some (.raw (.arr xs))) ∧
    (∀ (xs : List JsonV) (items : List TokenUsage),
      decodeAll TokenUsage.decode xs = some items →
      MemoryAnswer.parse_token_usage (some (.arr xs)) = some (.parsed items)) ∧
    (∀ xs : List JsonV, (∃ x ∈ xs, Citation.decode x = none) →
      SearchResult.parse_results (some (.arr xs)) = some (.raw (.arr xs))) ∧
    (∀ (xs : List JsonV) (items : List Citation),
      decodeAll Citation.decode xs = some items →
      SearchResult.parse_results (some (.arr xs)) = some (.parsed items)) := by
  refine ⟨fun xs hx => ?_, fun xs items h => ?_, fun xs hx => ?_, fun xs items h => ?_,
    fun xs hx => ?_, fun xs items h => ?_, fun xs hx => ?_, fun xs items h => ?_⟩
  · simp [Citation.parse_partitions, (decodeAll_eq_none_iff _ xs).mpr hx]
  · simp [Citation.parse_partitions, h]
  · simp [MemoryAnswer.parse_relevant_sources, (decodeAll_eq_none_iff _ xs).mpr hx]
  · simp [MemoryAnswer.parse_relevant_sources, h]
  · simp [MemoryAnswer.parse_token_usage, (decodeAll_eq_none_iff _ xs).mpr hx]
  · simp [MemoryAnswer.parse_token_usage, h]
  · simp [SearchResult.parse_results, (decodeAll_eq_none_iff _ xs).mpr hx]
  · simp [SearchResult.parse_results, h]

/-- C6 witness: a `partitions` array whose single element has a null
`lastUpdate` (so `Partition.from_dict` fails on it) is rejected as a
whole and kept raw; an array of well-formed objects decodes to the
structured list; a `results` array with one bad citation element
(a number) falls back to raw. -/
theorem c6_list_union_atomicity_witness :
    Citation.parse_partitions
      (some (.arr [.obj [("lastUpdate", JsonV.null)], .obj []])) =
      some (.raw (.arr [.obj [("lastUpdate", JsonV.null)], .obj []])) ∧
    Citation.parse_partitions (some (.arr [.obj [("text", JsonV.str "p1")]])) =
      some (.parsed [{ text := some (.str "p1") }]) ∧
    SearchResult.parse_results (some (.arr [.num (7 : Rat)])) =
      some (.raw (.arr [.num (7 : Rat)])) :=
  ⟨c6_list_union_atomicity.1 _ ⟨.obj [("lastUpdate", JsonV.null)], by simp, rfl⟩,
    c6_list_union_atomicity.2.1 _ _ rfl,
    c6_list_union_atomicity.2.2.2.2.2.2.1 _ ⟨.num (7 : Rat), by simp, rfl⟩⟩

/-- C9: a present `streamState` key whose value the `StreamStates` enum
constructor rejects (anything but the four member strings) makes
`MemoryAnswer.from_dict` fail outright — unlike the union fields
`tokenUsage`/`relevantSources` of the same model, which never fail for
any present value. -/
theorem c9_stream_state_no_fallback :
    (∀ (d : List (String × JsonV)) (v : JsonV), dlookup "streamState" d = some v →
      StreamStates.ofValue v = none → MemoryAnswer.from_dict d = none) ∧
    (∀ s : String, s ∉ (["append", "error", "last", "reset"] : List String) →
      StreamStates.ofValue (.str s) = none) ∧
    (∀ v : JsonV, MemoryAnswer.parse_token_usage (some v) ≠ none ∧
      MemoryAnswer.parse_relevant_sources (some v) ≠ none) := by
  refine ⟨fun d v hd hv => ?_, fun s hs => ?_, fun v => ⟨?_, ?_⟩⟩
  · simp [MemoryAnswer.from_dict, hd, hv]
  · simp only [StreamStates.ofValue]
    split
    · simp_all
    · simp_all
    · simp_all
    · simp_all
    · rfl
  · cases v with
    | arr xs =>
      cases h : decodeAll TokenUsage.decode xs <;>
        simp [MemoryAnswer.parse_token_usage, h]
    | null => simp [MemoryAnswer.parse_token_usage]
    | bool b => simp [MemoryAnswer.parse_token_usage]
    | num q => simp [MemoryAnswer.parse_token_usage]
    | str s => simp [MemoryAnswer.parse_token_usage]
    | obj fs => simp [MemoryAnswer.parse_token_usage]
  · cases v with
    | arr xs =>
      cases h : decodeAll Citation.decode xs <;>
        simp [MemoryAnswer.parse_relevant_sources, h]
    | null => simp [MemoryAnswer.parse_relevant_sources]
    | bool b => simp [MemoryAnswer.parse_relevant_sources]
    | num q => simp [MemoryAnswer.parse_relevant_sources]
    | str s => simp [MemoryAnswer.parse_relevant_sources]
    | obj fs => simp [MemoryAnswer.parse_relevant_sources]

/-- C9 witness: decoding `{"streamState": "bogus"}` fails, because
`"bogus"` is not a `StreamStates` member. -/
theorem c9_stream_state_no_fallback_witness :
    StreamStates.ofValue (.str "bogus") = none ∧
    MemoryAnswer.from_dict [("streamState", JsonV.str "bogus")] = none :=
  ⟨c9_stream_state_no_fallback.2.1 "bogus" (by decide),
    c9_stream_state_no_fallback.1 [("streamState", JsonV.str "bogus")]
      (JsonV.str "bogus") rfl rfl⟩

/-- C5: under the `/upload` dispatch table, a 202 response decodes its
body as `UploadAccepted`, a 400/401/403/503 response decodes its body
as `ProblemDetails`, and a status with no table entry raises
`UnexpectedStatus` carrying the raw status and body when
`raise_on_unexpected_status` is enabled, else yields an empty (`None`)
parsed result. -/
theorem c5_upload_status_dispatch :
    (∀ (c : Client) (body : JsonV) (u : UploadAccepted),
      UploadAccepted.decode body = some u →
      upload_parse_response c ⟨202, body⟩ = .ok (some (.uploadAccepted u))) ∧
    (∀ (c : Client) (body : JsonV) (p : ProblemDetails) (st : Nat),
      st ∈ ([400, 401, 403, 503] : List Nat) →
      ProblemDetails.decode body = some p →
      upload_parse_response c ⟨st, body⟩ = .ok (some (.problem p))) ∧
    (∀ (st : Nat) (body : JsonV),
      st ∉ ([200, 202, 400, 401, 403, 503] : List Nat) →
      upload_parse_response ⟨true⟩ ⟨st, body⟩ =
        .error (.unexpectedStatus ⟨st, body⟩) ∧
      upload_parse_response ⟨false⟩ ⟨st, body⟩ = .ok none) := by
  refine ⟨fun c body u hu => ?_, fun c body p st hst hp => ?_, fun st body hst => ?_⟩
  · simp [upload_parse_response, hu]
  · simp only [List.mem_cons, List.not_mem_nil, or_false] at hst
    rcases hst with h | h | h | h <;> subst h <;>
      simp [upload_parse_response, hp]
  · simp only [List.mem_cons, List.not_mem_nil, or_false, not_or] at hst
    obtain ⟨h200, h202, h400, h401, h403, h503⟩ := hst
    constructor <;>
      simp [upload_parse_response, h200, h202, h400, h401, h403, h503]

/-- C5 witness: a 202 response with an `UploadAccepted`-shaped body, a
400 response with a `ProblemDetails`-shaped body, and a 418 response
under both settings of the flag. -/
theorem c5_upload_status_dispatch_witness :
    upload_parse_response ⟨false⟩ ⟨202, .obj [("documentId", JsonV.str "d1")]⟩ =
      .ok (some (.uploadAccepted { document_id := some (.str "d1") })) ∧
    upload_parse_response ⟨true⟩ ⟨400, .obj [("status", JsonV.num (400 : Rat))]⟩ =
      .ok (some (.problem { status := some (.num (400 : Rat)) })) ∧
    upload_parse_response ⟨true⟩ ⟨418, .str "teapot"⟩ =
      .error (.unexpectedStatus ⟨418, .str "teapot"⟩) ∧
    upload_parse_response ⟨false⟩ ⟨418, .str "teapot"⟩ = .ok none :=
  ⟨c5_upload_status_dispatch.1 ⟨false⟩ _ _ rfl,
    c5_upload_status_dispatch.2.1 ⟨true⟩ _ _ 400 (by decide) rfl,
    (c5_upload_status_dispatch.2.2 418 (.str "teapot") (by decide)).1,
    (c5_upload_status_dispatch.2.2 418 (.str "teapot") (by decide)).2⟩

/-- C10: status 200 is a recognized `/upload` table entry whose parsed
result is `None` — `_parse_response` returns `None` for any body,
without decoding it and without raising even when
`raise_on_unexpected_status` is enabled; with the flag disabled the
parsed value of a 200 response is indistinguishable from that of an
unrecognized status. -/
theorem c10_upload_status200_parses_none :
    (∀ (c : Client) (body : JsonV),
      upload_parse_response c ⟨200, body⟩ = .ok none) ∧
    (∀ (st : Nat) (body body2 : JsonV),
      st ∉ ([200, 202, 400, 401, 403, 503] : List Nat) →
      upload_parse_response ⟨false⟩ ⟨st, body⟩ =
        upload_parse_response ⟨false⟩ ⟨200, body2⟩) := by
  refine ⟨fun c body => rfl, fun st body body2 hst => ?_⟩
  simp only [List.mem_cons, List.not_mem_nil, or_false, not_or] at hst
  obtain ⟨h200, h202, h400, h401, h403, h503⟩ := hst
  simp [upload_parse_response, h200, h202, h400, h401, h403, h503]

/-- C10 witness: with the flag disabled, a 418 response with one body
parses to the same `None` as a 200 response with a different body. -/
theorem c10_upload_status200_parses_none_witness :
    upload_parse_response ⟨false⟩ ⟨418, .str "teapot"⟩ =
      upload_parse_response ⟨false⟩ ⟨200, .obj [("index", JsonV.str "i")]⟩ :=
  c10_upload_status200_parses_none.2 418 (.str "teapot")
    (.obj [("index", JsonV.str "i")]) (by decide)

/-- C4: `ProblemDetails` open-model capture — `from_dict` stores every
incoming key other than the five declared wire keys unchanged in
`additional_properties` (and none of the declared keys), re-encoding
the decoded result reproduces every declared and unknown key/value
pair, and a declared field is emitted at its canonical wire name,
taking precedence over a captured field on key collision. -/
theorem c4_open_model_capture :
    (∀ d : List (String × JsonV), (d.map Prod.fst).Nodup →
      (∀ k, k ∉ (["type", "title", "status", "detail", "instance"] : List String) →
        dlookup k (ProblemDetails.from_dict d).additional_properties = dlookup k d) ∧
      (∀ k ∈ (["type", "title", "status", "detail", "instance"] : List String),
        dlookup k (ProblemDetails.from_dict d).additional_properties = none) ∧
      (∀ k, dlookup k (ProblemDetails.to_dict (ProblemDetails.from_dict d)) =
        dlookup k d)) ∧
    (∀ (p : ProblemDetails) (v : JsonV), p.type_ = some v →
      dlookup "type" p.to_dict = some v) := by
  constructor
  · intro d hn
    have hR : (ProblemDetails.from_dict d).additional_properties =
        dremove "instance" (dremove "detail" (dremove "status"
          (dremove "title" (dremove "type" d)))) := by
      rw [ProblemDetails.from_dict_eq]
    have ha : ∀ k, k ∉ (["type", "title", "status", "detail", "instance"] : List String) →
        dlookup k (ProblemDetails.from_dict d).additional_properties = dlookup k d := by
      intro k hk
      simp only [List.mem_cons, List.not_mem_nil, or_false, not_or] at hk
      obtain ⟨k1, k2, k3, k4, k5⟩ := hk
      rw [hR, dlookup_dremove_ne (Ne.symm k5), dlookup_dremove_ne (Ne.symm k4),
        dlookup_dremove_ne (Ne.symm k3), dlookup_dremove_ne (Ne.symm k2),
        dlookup_dremove_ne (Ne.symm k1)]
    have hb : ∀ k ∈ (["type", "title", "status", "detail", "instance"] : List String),
        dlookup k (ProblemDetails.from_dict d).additional_properties = none := by
      intro k hk
      simp only [List.mem_cons, List.not_mem_nil, or_false] at hk
      rw [hR]
      rcases hk with h | h | h | h | h <;> subst h
      · rw [dlookup_dremove_ne (by decide), dlookup_dremove_ne (by decide),
          dlookup_dremove_ne (by decide), dlookup_dremove_ne (by decide)]
        exact dlookup_dremove_self hn
      · rw [dlookup_dremove_ne (by decide), dlookup_dremove_ne (by decide),
          dlookup_dremove_ne (by decide)]
        exact dlookup_dremove_self (dremove_keys_nodup hn)
      · rw [dlookup_dremove_ne (by decide), dlookup_dremove_ne (by decide)]
        exact dlookup_dremove_self (dremove_keys_nodup (dremove_keys_nodup hn))
      · rw [dlookup_dremove_ne (by decide)]
        exact dlookup_dremove_self
          (dremove_keys_nodup (dremove_keys_nodup (dremove_keys_nodup hn)))
      · exact dlookup_dremove_self (dremove_keys_nodup
          (dremove_keys_nodup (dremove_keys_nodup (dremove_keys_nodup hn))))
    have hnR : ((ProblemDetails.from_dict d).additional_properties.map Prod.fst).Nodup := by
      rw [hR]
      exact dremove_keys_nodup (dremove_keys_nodup
        (dremove_keys_nodup (dremove_keys_nodup (dremove_keys_nodup hn))))
    have hT : (ProblemDetails.from_dict d).type_ = dlookup "type" d := by
      rw [ProblemDetails.from_dict_eq]
    have hTi : (ProblemDetails.from_dict d).title = dlookup "title" d := by
      rw [ProblemDetails.from_dict_eq]
    have hS : (ProblemDetails.from_dict d).status = dlookup "status" d := by
      rw [ProblemDetails.from_dict_eq]
    have hD : (ProblemDetails.from_dict d).detail = dlookup "detail" d := by
      rw [ProblemDetails.from_dict_eq]
    have hI : (ProblemDetails.from_dict d).instance_ = dlookup "instance" d := by
      rw [ProblemDetails.from_dict_eq]
    refine ⟨ha, hb, ?_⟩
    intro k
    rw [ProblemDetails.to_dict_eq (ProblemDetails.from_dict d) hnR hb]
    by_cases hk : k ∈ (["type", "title", "status", "detail", "instance"] : List String)
    · rw [dlookup_append_right (hb k hk)]
      simp only [List.mem_cons, List.not_mem_nil, or_false] at hk
      rcases hk with h | h | h | h | h <;> subst h
      · rw [declaredChain_lookup_type, hT]
      · rw [declaredChain_lookup_title, hTi]
      · rw [declaredChain_lookup_status, hS]
      · rw [declaredChain_lookup_detail, hD]
      · rw [declaredChain_lookup_instance, hI]
    · have hane := ha k hk
      simp only [List.mem_cons, List.not_mem_nil, or_false, not_or] at hk
      obtain ⟨k1, k2, k3, k4, k5⟩ := hk
      cases hv : dlookup k (ProblemDetails.from_dict d).additional_properties with
      | some v =>
        rw [dlookup_append_left hv, ← hane, hv]
      | none =>
        rw [dlookup_append_right hv,
          declaredChain_lookup_other k1 k2 k3 k4 k5, ← hane, hv]
  · intro p v hv
    simp only [ProblemDetails.to_dict, hv]
    rw [dlookup_demit_ne (by decide), dlookup_demit_ne (by decide),
      dlookup_demit_ne (by decide), dlookup_demit_ne (by decide)]
    exact dlookup_dinsert_self _ _ _

/-- C4 witness: decoding an object with two declared and one unknown
field, then re-encoding, reproduces the unknown pair and both declared
pairs; the precedence part applied to an instance whose captured bag
collides on `"type"`. -/
theorem c4_open_model_capture_witness :
    dlookup "traceId" (ProblemDetails.to_dict (ProblemDetails.from_dict
      [("title", JsonV.str "T"), ("traceId", JsonV.str "x")])) =
      dlookup "traceId" [("title", JsonV.str "T"), ("traceId", JsonV.str "x")] ∧
    dlookup "title" (ProblemDetails.to_dict (ProblemDetails.from_dict
      [("title", JsonV.str "T"), ("traceId", JsonV.str "x")])) =
      dlookup "title" [("title", JsonV.str "T"), ("traceId", JsonV.str "x")] ∧
    dlookup "type" (ProblemDetails.to_dict
      { type_ := some (JsonV.str "declared"),
        additional_properties := [("type", JsonV.str "captured")] }) =
      some (JsonV.str "declared") :=
  ⟨((c4_open_model_capture.1 _ (by decide)).2.2) "traceId",
    ((c4_open_model_capture.1 _ (by decide)).2.2) "title",
    c4_open_model_capture.2 _ _ rfl⟩
